import Mathlib

/-!
Verification of the NYAYASHASTRA agent-orchestration pipeline.

This file gives a shallow embedding, in Lean 4, of the core pipeline code of
the repository (backend/app/agents and backend/app/services) and proves or
refutes the frozen specification claims about it.

Conventions of the embedding:
* Python objects whose attributes are created dynamically are modelled as
  structures whose dynamically-assigned attributes are `Option` fields;
  `none` models "attribute absent", and an attribute read of an absent
  attribute is an `AttributeError` (modelled by `PyErr`).
* External effectful collaborators (LLM generation, the structured store,
  the vector store, the cross-encoder) are modelled as oracle parameters:
  plain functions supplied to the embedded code, so that every embedded
  function is a pure, executable Lean function of (oracle, input).
* Python timestamps and uuids are not modelled (no claim mentions them);
  the corresponding record fields are omitted.
* Numeric scores are modelled by `ℚ` (exact arithmetic).  All score
  comparisons exercised by the theorems below are far from any
  floating-point rounding boundary of the original code.
-/

/-- Python exception values, as far as the embedded code distinguishes them.
`attributeError a` models `AttributeError` raised on reading the missing
attribute `a`; `exc m` models any other exception with message `m`. -/
inductive PyErr where
  | attributeError (attr : String)
  | exc (msg : String)
deriving Repr, DecidableEq

/-- `app.schemas.AgentType`. -/
inductive AgentType where
  | query | statute | case | regulatory | citation | summary | response
deriving Repr, DecidableEq

/-- `app.schemas.AgentStatus`. -/
inductive AgentStatus where
  | pending | processing | completed | error
deriving Repr, DecidableEq

/-- An entity extracted by the query agent: the Python dicts
`{"type": ..., "value": ...}` appended to `context.entities`. -/
structure Entity where
  etype : String
  value : String
deriving Repr, DecidableEq

/-- A statute-shaped record (rows of the statutes table, and the
document-shaped dicts the statute agent builds from vector-store hits).
Python dict access `d.get(k)` is modelled by an `Option` field; a key that
is absent or bound to `None` is `none`. -/
structure StatuteRec where
  id : Option String := none
  act_code : Option String := none
  act_name : Option String := none
  section_number : Option String := none
  title_en : Option String := none
  title_hi : Option String := none
  content_en : Option String := none
  content : Option String := none
  domain : Option String := none
  category : Option String := none
  filename : Option String := none
  source : Option String := none
  punishment_description : Option String := none
  year_enacted : Option Int := none
deriving Repr, DecidableEq

/-- A case-law record as consumed by the citation agent. -/
structure CaseRec where
  id : Option String := none
  case_name : Option String := none
  case_name_hi : Option String := none
  citation_string : Option String := none
  source_url : Option String := none
  court : Option String := none
  court_name : Option String := none
  summary_en : Option String := none
  is_landmark : Bool := false
  reporting_year : Option Int := none
deriving Repr, DecidableEq

/-- One entry of a mapping's `changes` list. -/
structure ChangeRec where
  description : String := ""
deriving Repr, DecidableEq

/-- A raw IPC↔BNS mapping row as returned by
`StatuteService.get_ipc_bns_mapping`. -/
structure RawMapping where
  id : Option String := none
  ipc_section : Option String := none
  ipc_title : Option String := none
  ipc_content : Option String := none
  bns_section : Option String := none
  bns_title : Option String := none
  bns_content : Option String := none
  changes : List ChangeRec := []
  punishment_changed : Bool := false
  old_punishment : Option String := none
  new_punishment : Option String := none
  punishment_increased : Bool := false
  mapping_type : Option String := none
deriving Repr, DecidableEq

/-- The `punishment_change` sub-dict of a formatted mapping. -/
structure PunishmentChange where
  old : String
  new : String
  increased : Bool
deriving Repr, DecidableEq

/-- The formatted mapping dict built by
`StatuteRetrievalAgent._get_cross_mappings` (lines 158-173). -/
structure MappingRec where
  id : String := ""
  ipc_section : String := ""
  ipc_title : String := ""
  ipc_content : String := ""
  bns_section : String := ""
  bns_title : String := ""
  bns_content : String := ""
  changes : List ChangeRec := []
  punishment_change : Option PunishmentChange := none
  mapping_type : String := "exact"
deriving Repr, DecidableEq

/-- A citation record as built by `CitationAgent`.  The three constructor
methods produce dicts with slightly different key sets; fields that only
some of them set are `Option` fields here. -/
structure Citation where
  id : String
  title : String
  title_hi : String := ""
  source : String
  source_name : String
  url : String
  excerpt : Option String := none
  year : Option Int := none
  ctype : String
  verified : Bool := true
  section_number : Option String := none
  act_code : Option String := none
  court : Option String := none
  is_landmark : Option Bool := none
  takeaway : Option String := none
deriving Repr, DecidableEq

/-- `app.schemas.AgentProcessingStep` (timestamps not modelled). -/
structure AgentProcessingStep where
  agent : AgentType
  status : AgentStatus
  result_summary : Option String := none
deriving Repr, DecidableEq

/-- An entry of `context.errors` (`AgentContext.add_error`;
the timestamp is not modelled). -/
structure ErrorRecord where
  agent : String
  error : String
deriving Repr, DecidableEq

/-- The regulatory notes dict is not inspected by any claim; it is kept
opaque. -/
structure RegulatoryNotes where
  domain : String := ""
deriving Repr, DecidableEq

/-- `app.agents.base.AgentContext`.  Every field assigned by `__init__`
(lines 22-57) appears here with its initial value as the default.

`is_relevant` and `rejection_message` are NOT assigned by `__init__`:
they are created dynamically by `QueryUnderstandingAgent.process`
(query_agent.py lines 75-90) and read elsewhere.  They are therefore
`Option` fields defaulting to `none`, where `none` means "attribute does
not exist" and reading it raises `AttributeError`.  Likewise
`regulatory_notes` is only created by the regulatory agent. -/
structure AgentContext where
  query : String
  original_query : String
  language : String := "en"
  session_id : Option String := none
  specified_domain : Option String := none
  detected_language : Option String := none
  detected_domain : Option String := none
  reformulated_query : Option String := none
  keywords : List String := []
  entities : List Entity := []
  statutes : List StatuteRec := []
  case_laws : List CaseRec := []
  citations : List Citation := []
  ipc_bns_mappings : List MappingRec := []
  jurisdiction : Option String := none
  applicable_acts : List String := []
  document_summary : Option String := none
  response : Option String := none
  response_hi : Option String := none
  agent_steps : List AgentProcessingStep := []
  errors : List ErrorRecord := []
  is_relevant : Option Bool := none
  rejection_message : Option String := none
  regulatory_notes : Option RegulatoryNotes := none
deriving Repr, DecidableEq

/-- The context the orchestrator creates at request entry
(orchestrator.py lines 92-97 and 132-137). -/
def AgentContext.init (query : String) (language : String)
    (session_id : Option String) (domain : Option String) : AgentContext :=
  { query := query
    original_query := query
    language := language
    session_id := session_id
    specified_domain := domain }

/-- `AgentContext.add_agent_step`: update the existing step for the agent
in place, else append (base.py lines 59-74). -/
def AgentContext.add_agent_step (ctx : AgentContext) (agent : AgentType)
    (status : AgentStatus) (result_summary : Option String := none) :
    AgentContext :=
  let step : AgentProcessingStep :=
    { agent := agent, status := status, result_summary := result_summary }
  { ctx with
    agent_steps :=
      if ctx.agent_steps.any (fun s => s.agent = agent) then
        ctx.agent_steps.map (fun s => if s.agent = agent then step else s)
      else
        ctx.agent_steps ++ [step] }

/-- `AgentContext.add_error` (base.py lines 76-82). -/
def AgentContext.add_error (ctx : AgentContext) (agent : String)
    (error : String) : AgentContext :=
  { ctx with errors := ctx.errors ++ [{ agent := agent, error := error }] }

/-- An agent as the orchestrator sees it.  `exec` models
`BaseAgent.execute`, which is total: it wraps `process` in
`try`/`except`, and on an exception records an error step and an error
record and returns the context (base.py lines 100-124). -/
structure Agent where
  agent_type : AgentType
  name : String
  exec : AgentContext → AgentContext

/-- `str(e)` as the agents use it. -/
def pyErrMsg : PyErr → String
  | PyErr.attributeError a => a
  | PyErr.exc m => m

/-- `BaseAgent.execute` (base.py lines 100-124), built from a `process`
function that returns the context as mutated so far together with the
exception it raised, if any.  Python mutates the shared context in place,
so the mutations made before the raise survive into the `except` branch. -/
def base_execute (agent_type : AgentType) (name : String)
    (process : AgentContext → AgentContext × Option PyErr)
    (ctx : AgentContext) : AgentContext :=
  let ctx1 := ctx.add_agent_step agent_type AgentStatus.processing
  match process ctx1 with
  | (ctx2, none) =>
      ctx2.add_agent_step agent_type AgentStatus.completed
        (some (name ++ " completed successfully"))
  | (ctx2, some e) =>
      (ctx2.add_agent_step agent_type AgentStatus.error (some (pyErrMsg e))).add_error
        name (pyErrMsg e)

/-- The fixed agent order of `AgentOrchestrator.__init__`
(orchestrator.py lines 36-55), abstracted over the seven `execute`
functions. -/
def mkPipeline (qE sE cE rE ciE suE reE : AgentContext → AgentContext) :
    List Agent :=
  [ { agent_type := .query, name := "Query Understanding", exec := qE }
  , { agent_type := .statute, name := "Statute Retrieval", exec := sE }
  , { agent_type := .case, name := "Case Law Research", exec := cE }
  , { agent_type := .regulatory, name := "Regulatory Filter", exec := rE }
  , { agent_type := .citation, name := "Citation Agent", exec := ciE }
  , { agent_type := .summary, name := "Summarization", exec := suE }
  , { agent_type := .response, name := "Response Synthesis", exec := reE } ]

/-- The agent loop of `AgentOrchestrator.process_query`
(orchestrator.py lines 102-113).  Each iteration first evaluates
`not context.is_relevant` (line 104); that attribute read is OUTSIDE the
`try` of lines 108-113, so when the attribute does not exist the
`AttributeError` propagates out of `process_query`.  When the attribute
exists and is `False` and the agent is not the response agent, the agent
is skipped; otherwise `agent.execute` runs (it is total, so the `except`
of lines 111-113 is dead code in this model). -/
def process_query_loop : List Agent → AgentContext → Except PyErr AgentContext
  | [], ctx => Except.ok ctx
  | a :: rest, ctx =>
    match ctx.is_relevant with
    | none => Except.error (PyErr.attributeError "is_relevant")
    | some r =>
      if r = false ∧ a.agent_type ≠ AgentType.response then
        process_query_loop rest ctx
      else
        process_query_loop rest (a.exec ctx)

/-- The response payload built by `AgentOrchestrator._build_response`
(orchestrator.py lines 226-247); uuid, execution time and timestamp are
not modelled. -/
structure ResponsePayload where
  session_id : Option String
  query : String
  language : String
  detected_language : Option String
  detected_domain : Option String
  response_content : Option String
  response_content_hi : Option String
  statutes : List StatuteRec
  case_laws : List CaseRec
  ipc_bns_mappings : List MappingRec
  citations : List Citation
  agent_pipeline : List AgentProcessingStep
  errors : List ErrorRecord
deriving Repr, DecidableEq

/-- `AgentOrchestrator._build_response`. -/
def build_response (ctx : AgentContext) : ResponsePayload :=
  { session_id := ctx.session_id
    query := ctx.original_query
    language := ctx.language
    detected_language := ctx.detected_language
    detected_domain := ctx.detected_domain
    response_content := ctx.response
    response_content_hi := ctx.response_hi
    statutes := ctx.statutes
    case_laws := ctx.case_laws
    ipc_bns_mappings := ctx.ipc_bns_mappings
    citations := ctx.citations
    agent_pipeline := ctx.agent_steps
    errors := ctx.errors }

/-- `AgentOrchestrator.process_query` (orchestrator.py lines 81-120):
create the context, run the agent loop, build the payload.  An uncaught
exception in the loop propagates to the caller. -/
def process_query (agents : List Agent) (query : String) (language : String)
    (session_id : Option String) (domain : Option String) :
    Except PyErr ResponsePayload :=
  (process_query_loop agents (AgentContext.init query language session_id domain)).map
    build_response

/-- A streaming event (`ChatStreamChunk`), carrying the data fields the
claims mention. -/
inductive StreamEvent where
  | start (session_id : Option String) (query : String)
  | agent_status (agent : AgentType) (status : AgentStatus)
  | statutes (items : List StatuteRec)
  | case_laws (items : List CaseRec)
  | citations (items : List Citation)
  | response (content : Option String) (content_hi : Option String)
  | complete (session_id : Option String)
deriving Repr, DecidableEq

/-- The agent loop of `AgentOrchestrator.process_query_streaming`
(orchestrator.py lines 146-224).  The generator yields the
`agent_status(processing)` chunk (line 148) and then evaluates
`not context.is_relevant` (line 159); when the attribute does not exist
the `AttributeError` escapes the generator, so the consumer receives the
events emitted so far and then the exception.  The result is the emitted
event list paired with the escaping exception, if any. -/
def process_query_streaming_loop :
    List Agent → AgentContext → List StreamEvent × Option PyErr × AgentContext
  | [], ctx => ([], none, ctx)
  | a :: rest, ctx =>
    let started := [StreamEvent.agent_status a.agent_type AgentStatus.processing]
    match ctx.is_relevant with
    | none => (started, some (PyErr.attributeError "is_relevant"), ctx)
    | some r =>
      if r = false ∧ a.agent_type ≠ AgentType.response then
        -- `continue`: no completion chunk, no intermediate results
        let (evs, err, ctx2) := process_query_streaming_loop rest ctx
        (started ++ evs, err, ctx2)
      else
        let ctx1 := a.exec ctx
        let done := [StreamEvent.agent_status a.agent_type AgentStatus.completed]
        let mid : List StreamEvent :=
          if a.agent_type = AgentType.statute ∧ ctx1.statutes ≠ [] then
            [StreamEvent.statutes (ctx1.statutes.take 5)]
          else if a.agent_type = AgentType.case ∧ ctx1.case_laws ≠ [] then
            [StreamEvent.case_laws (ctx1.case_laws.take 3)]
          else if a.agent_type = AgentType.citation ∧ ctx1.citations ≠ [] then
            [StreamEvent.citations ctx1.citations]
          else []
        let (evs, err, ctx2) := process_query_streaming_loop rest ctx1
        (started ++ done ++ mid ++ evs, err, ctx2)

/-- `AgentOrchestrator.process_query_streaming` (orchestrator.py lines
122-224): the `start` event, the agent loop, and on normal loop exit the
final `response` and `complete` events. -/
def process_query_streaming (agents : List Agent) (query : String)
    (language : String) (session_id : Option String) (domain : Option String) :
    List StreamEvent × Option PyErr :=
  let ctx0 := AgentContext.init query language session_id domain
  let (evs, err, ctx) := process_query_streaming_loop agents ctx0
  match err with
  | some e => (StreamEvent.start session_id query :: evs, some e)
  | none =>
      (StreamEvent.start session_id query :: evs ++
        [StreamEvent.response ctx.response ctx.response_hi,
         StreamEvent.complete session_id], none)

/-! ## String helpers shared by the embedded agents

Python string semantics modelled on `List Char` (Lean 4.14 strings wrap a
`List Char`, and Python strings are sequences of code points, so the two
agree).  Case folding uses Lean's ASCII `Char.toLower`/`Char.toUpper`;
Python folds full Unicode, but every theorem below exercises case folding
on ASCII only. -/

/-- Python `\s` (ASCII part). -/
def isPySpace (c : Char) : Bool :=
  c = ' ' ∨ c = '\t' ∨ c = '\n' ∨ c = '\x0d' ∨ c = '\x0c' ∨ c = '\x0b'

/-- ASCII Latin letter, the `[a-zA-Z]` class. -/
def isLatinLetter (c : Char) : Bool :=
  (0x61 ≤ c.toNat ∧ c.toNat ≤ 0x7A) ∨ (0x41 ≤ c.toNat ∧ c.toNat ≤ 0x5A)

/-- ASCII digit, the `\d` class (Python `\d` also matches non-ASCII
digits; none occur in the inputs of any theorem below). -/
def isDigitChar (c : Char) : Bool :=
  0x30 ≤ c.toNat ∧ c.toNat ≤ 0x39

/-- Python `\w`: word characters.  Python's `\w` is Unicode-aware; we
model ASCII word characters plus the Devanagari block, which are the
character classes the embedded patterns are exercised on. -/
def isPyWord (c : Char) : Bool :=
  isLatinLetter c ∨ isDigitChar c ∨ c = '_' ∨ (0x900 ≤ c.toNat ∧ c.toNat ≤ 0x97F)

/-- Case-insensitive equality of characters (ASCII folding). -/
def eqCI (a b : Char) : Bool :=
  a = b ∨ a.toLower = b ∨ a = b.toLower

/-- Does `cs` start with `pre` (case-insensitively when `ci`)? -/
def startsWithL (ci : Bool) : List Char → List Char → Bool
  | _, [] => true
  | [], _ :: _ => false
  | c :: cs, p :: ps => (if ci then eqCI c p else c = p) ∧ startsWithL ci cs ps

/-- Does `hay` contain `needle` as a contiguous substring
(Python `needle in hay`)? -/
def containsSub (hay needle : List Char) : Bool :=
  match hay with
  | [] => needle = []
  | _ :: rest => startsWithL false hay needle ∨ containsSub rest needle

/-- `needle in hay` on `String`. -/
def strContains (hay needle : String) : Bool :=
  containsSub hay.data needle.data

/-- Python `str.lower()` (ASCII folding, code-point map; kept off
`String.toLower` so that proofs can evaluate it). -/
def pyLower (s : String) : String :=
  ⟨s.data.map Char.toLower⟩

/-- Python `str.strip()` (whitespace trim on both ends). -/
def pyStrip (s : String) : String :=
  ⟨((s.data.dropWhile isPySpace).reverse.dropWhile isPySpace).reverse⟩

/-- Truthiness of an optional string attribute: Python `if x:` is false
for both `None` and `""`. -/
def optTruthy (o : Option String) : Bool :=
  o.getD "" ≠ ""

/-! ## QueryUnderstandingAgent._detect_language (query_agent.py 124-170) -/

/-- Code-point range test. -/
def inRange (lo hi : Nat) (c : Char) : Bool :=
  lo ≤ c.toNat ∧ c.toNat ≤ hi

/-- Character-set test from an explicit list. -/
def inSet (cs : List Char) (c : Char) : Bool :=
  cs.contains c

/-- The `language_patterns` table of `_detect_language`, in source order.
Each single-character-class regex is the corresponding code-point test.
Note the last three entries (`es`, `fr`, `de`) are sets of *Latin*
diacritic characters, not non-Latin script ranges. -/
def language_patterns : List (String × (Char → Bool)) :=
  [ ("hi", inRange 0x900 0x97F)    -- Devanagari
  , ("ta", inRange 0xB80 0xBFF)    -- Tamil
  , ("te", inRange 0xC00 0xC7F)    -- Telugu
  , ("bn", inRange 0x980 0x9FF)    -- Bengali
  , ("gu", inRange 0xA80 0xAFF)    -- Gujarati
  , ("kn", inRange 0xC80 0xCFF)    -- Kannada
  , ("ml", inRange 0xD00 0xD7F)    -- Malayalam
  , ("pa", inRange 0xA00 0xA7F)    -- Punjabi (Gurmukhi)
  , ("or", inRange 0xB00 0xB7F)    -- Odia
  , ("as", inRange 0x980 0x9FF)    -- Assamese (Bengali script)
  , ("ar", inRange 0x600 0x6FF)    -- Arabic
  , ("ur", inRange 0x600 0x6FF)    -- Urdu (Arabic script)
  , ("zh", inRange 0x4E00 0x9FFF)  -- Chinese
  , ("ja", inRange 0x3040 0x30FF)  -- Japanese
  , ("ko", inRange 0xAC00 0xD7AF)  -- Korean
  , ("th", inRange 0xE00 0xE7F)    -- Thai
  , ("ru", inRange 0x400 0x4FF)    -- Russian (Cyrillic)
  , ("es", inSet "áéíóúñ¿¡".data)        -- Spanish accented letters
  , ("fr", inSet "àâçéèêëïîôùûü".data)   -- French accented letters
  , ("de", inSet "äöüß".data)            -- German accented letters
  ]

/-- `len(re.findall(pattern, text, re.IGNORECASE))` for a
single-character-class pattern: count the characters matching the class
under case folding. -/
def countCI (p : Char → Bool) (s : List Char) : Nat :=
  s.countP (fun c => p c ∨ p c.toLower ∨ p c.toUpper)

/-- The `char_counts` dict: languages with a positive match count, in
`language_patterns` (= dict insertion) order. -/
def char_counts (s : List Char) : List (String × Nat) :=
  language_patterns.filterMap (fun lp =>
    let n := countCI lp.2 s
    if n > 0 then some (lp.1, n) else none)

/-- `max(char_counts, key=char_counts.get)`: the first entry with the
maximal count (Python's `max` keeps the earliest of several maxima). -/
def firstMax : List (String × Nat) → Option (String × Nat)
  | [] => none
  | x :: xs => some (xs.foldl (fun b y => if y.2 > b.2 then y else b) x)

/-- `QueryUnderstandingAgent._detect_language`.  The float comparison
`count > english_chars * 0.3` is modelled exactly as `10*count >
3*english`; see the header note on numerics. -/
def detect_language (text : String) : String :=
  let english_chars := text.data.countP (fun c => isLatinLetter c)
  match firstMax (char_counts text.data) with
  | none => "en"
  | some (lang, n) => if 10 * n > 3 * english_chars then lang else "en"

/-! ## QueryUnderstandingAgent._extract_sections (query_agent.py 172-186) -/

/-- Greedy run of digits at the head: `\d+`. -/
def takeDigits (cs : List Char) : List Char × List Char :=
  (cs.takeWhile isDigitChar, cs.dropWhile isDigitChar)

/-- Try `SECTION_PATTERN = (?:section|sec|धारा|§)\s*(\d+[a-zA-Z]?)`
(case-insensitive) at the head of `cs`; on success return the captured
group and the remainder after the whole match.  Alternatives are tried
in pattern order (`section` before `sec`). -/
def matchSectionAt (cs : List Char) : Option (String × List Char) :=
  let tryPrefix : List Char → Option (List Char) := fun p =>
    if startsWithL true cs p then some (cs.drop p.length) else none
  let afterKw : Option (List Char) :=
    match tryPrefix "section".data with
    | some r => some r
    | none =>
      match tryPrefix "sec".data with
      | some r => some r
      | none =>
        match tryPrefix "धारा".data with
        | some r => some r
        | none => tryPrefix "§".data
  match afterKw with
  | none => none
  | some r1 =>
    let r2 := r1.dropWhile isPySpace
    match takeDigits r2 with
    | ([], _) => none
    | (ds, r3) =>
      match r3 with
      | c :: r4 => if isLatinLetter c then some (⟨ds ++ [c]⟩, r4) else some (⟨ds⟩, r3)
      | [] => some (⟨ds⟩, [])

/-- `re.findall(SECTION_PATTERN, text)`: leftmost, non-overlapping scan.
Fuel-based recursion: every step either advances one position or consumes
a whole match (at least one character), so `fuel = length` never runs
out. -/
def findSectionsAux : Nat → List Char → List String
  | 0, _ => []
  | _ + 1, [] => []
  | fuel + 1, c :: rest =>
    match matchSectionAt (c :: rest) with
    | some (cap, r) => cap :: findSectionsAux fuel r
    | none => findSectionsAux fuel rest

def findSections (cs : List Char) : List String :=
  findSectionsAux cs.length cs

/-- Word boundary after a match: at end of input or before a non-word
character. -/
def boundaryAfter (cs : List Char) : Bool :=
  match cs with
  | [] => true
  | c :: _ => ¬ isPyWord c

/-- Try the standalone-number pattern `\b(\d{2,3}[a-zA-Z]?)\b` at the
head of `cs`, `prev` being the character before the current position.
Greedy order as in Python: three digits before two, with the optional
letter before without. -/
def matchStandaloneAt (prev : Option Char) (cs : List Char) : Option (String × List Char) :=
  let boundaryBefore : Bool :=
    match prev with
    | none => true
    | some p => ¬ isPyWord p
  if ¬ boundaryBefore then none
  else
    let finish : List Char → List Char → Option (String × List Char) := fun ds r =>
      match r with
      | c :: r2 =>
        if isLatinLetter c ∧ boundaryAfter r2 then some (⟨ds ++ [c]⟩, r2)
        else if boundaryAfter r then some (⟨ds⟩, r) else none
      | [] => some (⟨ds⟩, [])
    match cs with
    | d1 :: d2 :: d3 :: r =>
      if isDigitChar d1 ∧ isDigitChar d2 ∧ isDigitChar d3 then
        match finish [d1, d2, d3] r with
        | some x => some x
        | none =>
          -- backtrack to two digits
          if boundaryAfter (d3 :: r) then some (⟨[d1, d2]⟩, d3 :: r) else none
      else if isDigitChar d1 ∧ isDigitChar d2 then finish [d1, d2] (d3 :: r)
      else none
    | d1 :: d2 :: r =>
      if isDigitChar d1 ∧ isDigitChar d2 then finish [d1, d2] r else none
    | _ => none

/-- `re.findall(r'\b(\d{2,3}[a-zA-Z]?)\b', text)`, fuel-based as above. -/
def findStandaloneAux : Nat → Option Char → List Char → List String
  | 0, _, _ => []
  | _ + 1, _, [] => []
  | fuel + 1, prev, c :: rest =>
    match matchStandaloneAt prev (c :: rest) with
    | some (cap, r) =>
      cap :: findStandaloneAux fuel (some (cap.data.getLast!)) r
    | none => findStandaloneAux fuel (some c) rest

def findStandalone (cs : List Char) : List String :=
  findStandaloneAux cs.length none cs

/-- The fixed `common_sections` set (query_agent.py line 180). -/
def common_sections : List String :=
  ["302", "307", "376", "420", "498", "304", "306", "323", "354", "506", "379", "380"]

/-- Keep the first occurrence of each element.  Python's
`list(set(matches))` iterates the set in an implementation-defined
(hash-seed dependent) order; every theorem below only exercises inputs
with at most one distinct section, on which all orders agree with this
model. -/
def dedupKeepFirstAux : Nat → List String → List String
  | 0, _ => []
  | _ + 1, [] => []
  | fuel + 1, x :: xs => x :: dedupKeepFirstAux fuel (xs.filter (fun y => y ≠ x))

def dedupKeepFirst (l : List String) : List String :=
  dedupKeepFirstAux l.length l

/-- `QueryUnderstandingAgent._extract_sections` (query_agent.py 172-186). -/
def extract_sections (text : String) : List String :=
  let ms := findSections text.data
  let standalone := findStandalone text.data
  let ms2 := standalone.foldl
    (fun acc num =>
      if common_sections.contains num ∧ ¬ acc.contains num then acc ++ [num] else acc)
    ms
  dedupKeepFirst ms2

/-! ## QueryUnderstandingAgent._extract_keywords (query_agent.py 188-198) -/

/-- The stop-word set of `_extract_keywords`. -/
def keyword_stop_words : List String :=
  ["what", "is", "the", "of", "for", "in", "and", "or", "a", "an",
   "to", "how", "can", "under", "about", "which", "क्या", "है",
   "के", "का", "की", "में", "और", "या", "एक", "कैसे"]

/-- `re.findall(r'\b\w+\b', text)`: the maximal runs of word
characters (fuel-based; each step strictly shortens the input). -/
def wordRunsAux : Nat → List Char → List (List Char)
  | 0, _ => []
  | _ + 1, [] => []
  | fuel + 1, c :: rest =>
    if isPyWord c then
      ((c :: rest).takeWhile isPyWord) :: wordRunsAux fuel ((c :: rest).dropWhile isPyWord)
    else wordRunsAux fuel rest

def wordRuns (cs : List Char) : List (List Char) :=
  wordRunsAux cs.length cs

/-- `QueryUnderstandingAgent._extract_keywords`. -/
def extract_keywords (text : String) : List String :=
  let words := (wordRuns (pyLower text).data).map (fun r => (⟨r⟩ : String))
  (words.filter (fun w => ¬ keyword_stop_words.contains w ∧ w.length > 2)).take 10

/-! ## QueryUnderstandingAgent._reformulate_query (query_agent.py 200-216) -/

def reformulate_query (ctx : AgentContext) : String :=
  let parts1 : List String :=
    if optTruthy ctx.detected_domain then ["[" ++ ctx.detected_domain.getD "" ++ "]"] else []
  let parts2 := parts1 ++ [ctx.query]
  let sections := (ctx.entities.filter (fun e => e.etype = "section")).map Entity.value
  let parts3 :=
    if sections ≠ [] then
      parts2 ++ ["(Sections: " ++ String.intercalate ", " sections ++ ")"]
    else parts2
  String.intercalate " " parts3

/-! ## LLMRouter (llm_router.py): the domain gate used by the pipeline.

`detect_domain` and `verify_domain_match` call the LLM through
`self.llm_service.generate`, modelled as the oracle function
`llm : String → Except PyErr String` (prompt to response, or a raised
exception).  Both methods catch every exception internally. -/

/-- `LLMRouter.DOMAIN_MAP` in source (= dict insertion) order. -/
def DOMAIN_MAP : List (String × String) :=
  [ ("criminal", "Criminal Law (IPC, CrPC, murder, theft, assault, etc.)")
  , ("traffic", "Traffic Law (Motor Vehicles Act, traffic violations, licensing, etc.)")
  , ("civil_family", "Civil & Family Law (contracts, marriage, divorce, property disputes, etc.)")
  , ("corporate", "Corporate Law (Companies Act, directors, shareholders, corporate governance, etc.)")
  , ("it_cyber", "IT & Cyber Law (cybercrime, hacking, data protection, digital signatures, etc.)")
  , ("property", "Property Law (real estate, land transactions, mortgages, inheritance, etc.)")
  , ("constitutional", "Constitutional Law (fundamental rights, writs, judicial review, amendments, etc.)")
  , ("environment", "Environmental Law (pollution, forest protection, wildlife, environmental clearances, etc.)") ]

/-- The prompt of `LLMRouter.detect_domain` (llm_router.py 37-46). -/
def detect_domain_prompt (query : String) : String :=
  let domain_list :=
    String.intercalate "\n" (DOMAIN_MAP.map (fun p => "- " ++ p.1 ++ ": " ++ p.2))
  "Analyze this legal query and determine which Indian law domain it belongs to.\n\n" ++
  "Query: \"" ++ query ++ "\"\n\nAvailable domains:\n" ++ domain_list ++
  "\n\nRespond with ONLY the domain key (e.g., \"criminal\", \"traffic\", \"corporate\"). Choose the most relevant one."

/-- `LLMRouter.detect_domain` (llm_router.py 30-64): ask the LLM, scan
the response for the first domain key it contains, default to
`criminal`. -/
def detect_domain (llm : String → Except PyErr String) (query : String) :
    String × ℚ :=
  match llm (detect_domain_prompt query) with
  | Except.error _ => ("criminal", 3/10)
  | Except.ok response =>
    let detected := pyLower (pyStrip response)
    match DOMAIN_MAP.find? (fun p => strContains detected p.1) with
    | some p => (p.1, 9/10)
    | none => ("criminal", 5/10)

/-- The prompt of `LLMRouter.verify_domain_match` (llm_router.py 138-142). -/
def verify_domain_match_prompt (query domain_desc : String) : String :=
  "Does this legal query belong to " ++ domain_desc ++ "?\n\nQuery: \"" ++ query ++
  "\"\n\nAnswer with ONLY \"yes\" or \"no\"."

/-- `LLMRouter.verify_domain_match` (llm_router.py 129-158): the domain
gate the pipeline actually uses.  A response containing "yes" accepts;
otherwise `detect_domain` supplies the suggested domain; any LLM
exception accepts. -/
def verify_domain_match (llm : String → Except PyErr String)
    (query specified_domain : String) : Bool × String :=
  let domain_desc := ((DOMAIN_MAP.lookup specified_domain).getD specified_domain)
  match llm (verify_domain_match_prompt query domain_desc) with
  | Except.error _ => (true, specified_domain)
  | Except.ok response =>
    if strContains (pyLower response) "yes" then (true, specified_domain)
    else (false, (detect_domain llm query).1)

/-! ## QueryUnderstandingAgent.process (query_agent.py 41-122) -/

/-- Does `text` contain one of `phrases` with word boundaries on both
sides (the `\b(?:...|...)\b` search of `IPC_PATTERN`/`BNS_PATTERN`,
case-insensitive)? -/
def containsWordPhraseAux (phrases : List (List Char)) :
    Nat → Option Char → List Char → Bool
  | 0, _, _ => false
  | _ + 1, _, [] => false
  | fuel + 1, prev, c :: rest =>
    let boundaryBefore : Bool :=
      match prev with
      | none => true
      | some p => ¬ isPyWord p
    let hereMatch : Bool :=
      boundaryBefore ∧ phrases.any (fun p =>
        startsWithL true (c :: rest) p ∧ boundaryAfter ((c :: rest).drop p.length))
    hereMatch ∨ containsWordPhraseAux phrases fuel (some c) rest

def containsWordPhrase (text : String) (phrases : List String) : Bool :=
  containsWordPhraseAux (phrases.map String.data) text.data.length none text.data

/-- `IPC_PATTERN.search` (query_agent.py line 20). -/
def ipc_pattern_search (text : String) : Bool :=
  containsWordPhrase text ["ipc", "indian penal code", "भारतीय दंड संहिता"]

/-- `BNS_PATTERN.search` (query_agent.py line 21). -/
def bns_pattern_search (text : String) : Bool :=
  containsWordPhrase text ["bns", "bhartiya nyaya sanhita", "भारतीय न्याय संहिता"]

/-- The values of `app.schemas.LegalDomain`. -/
def legalDomainValues : List String :=
  ["criminal", "civil", "corporate", "it_cyber", "environmental", "labour",
   "financial", "constitutional", "family", "property", "other"]

/-- The `JURISDICTION_ACTS` table of regulatory_agent.py (lines 16-28),
keyed here by the intended `LegalDomain.value` strings.

Fidelity note: in the source the dict literal is keyed by `LegalDomain`
members, and the members `CIVIL_FAMILY`, `ENVIRONMENT` and `TRAFFIC` do
not exist in `app.schemas.LegalDomain`; importing `regulatory_agent`
therefore raises `AttributeError` at module load.  We model the table as
written; the query agent reaches an entry only for domain strings that
are also schema enum values (see `query_process`), so the unreachable
entries are harmless. -/
def jurisdiction_acts (domain : String) : List String :=
  if domain = "criminal" then ["IPC", "BNS", "CrPC", "BNSS", "IEA", "BSA"]
  else if domain = "corporate" then
    ["Companies Act", "SEBI Act", "IBC", "LLP Act", "Partnership Act",
     "Income Tax Act", "GST Act"]
  else if domain = "it_cyber" then ["IT Act", "DPDP Act", "Information Technology Act"]
  else if domain = "environment" then
    ["Environment Protection Act", "Wildlife Protection Act",
     "Forest Conservation Act", "Water Act", "Air Act", "NGT Act"]
  else if domain = "civil_family" then
    ["CPC", "Hindu Marriage Act", "Special Marriage Act", "Hindu Succession Act",
     "Indian Divorce Act", "Muslim Personal Law", "Domestic Violence Act", "Contract Act"]
  else if domain = "property" then
    ["Transfer of Property Act", "Registration Act", "Stamp Act",
     "RERA", "Land Acquisition Act"]
  else if domain = "constitutional" then
    ["Constitution of India", "Representation of People Act", "RTI Act"]
  else if domain = "traffic" then ["Motor Vehicles Act", "Road Safety Rules"]
  else []

/-- External collaborators of the query agent: the Ollama service
initialization (which may raise; `process` has no `try` of its own, so
such an exception escapes to `BaseAgent.execute`) and the LLM generate
function used by `LLMRouter`. -/
structure QueryOracle where
  ollama_init : Except PyErr Unit
  llm : String → Except PyErr String

/-- `QueryUnderstandingAgent.process` (query_agent.py 41-122), returning
the context as mutated so far together with the escaping exception, if
any.  Note what the source does and does not do:
* language detection and section extraction happen before the LLM router
  is initialized, so their effects survive an initialization failure;
* there is no `try`/`except` in `process` itself and no fallback to
  English / "criminal" / `{IPC, BNS}` on failure. -/
def query_process (o : QueryOracle) (ctx : AgentContext) :
    AgentContext × Option PyErr :=
  let queryLower := pyLower ctx.query
  let ctx1 := { ctx with detected_language := some (detect_language ctx.query) }
  let sections := extract_sections ctx.query
  let ctx2 :=
    { ctx1 with entities := ctx1.entities ++
        (if sections ≠ [] then
          sections.map (fun s => { etype := "section", value := s })
        else []) }
  match o.ollama_init with
  | Except.error e => (ctx2, some e)
  | Except.ok _ =>
    let ctx3 :=
      if optTruthy ctx2.specified_domain ∧ ctx2.specified_domain ≠ some "all" then
        let d := ctx2.specified_domain.getD ""
        let vm := verify_domain_match o.llm queryLower d
        if vm.1 = false then
          { ctx2 with
            detected_domain := some vm.2
            is_relevant := some false
            rejection_message := some
              ("⚠️ Your query appears to be about **" ++ vm.2 ++
               "** law, but you\x27ve selected **" ++ d ++
               "** domain. Please switch to the correct domain for accurate results.") }
        else
          { ctx2 with
            detected_domain := some d
            is_relevant := some true }
      else
        let dd := detect_domain o.llm queryLower
        { ctx2 with
          detected_domain := some dd.1
          is_relevant := some true }
    let is_ipc := ipc_pattern_search ctx.query
    let is_bns := bns_pattern_search ctx.query
    let acts1 := ctx3.applicable_acts ++
      (if is_ipc then ["IPC"] else []) ++ (if is_bns then ["BNS"] else [])
    let acts2 :=
      if acts1 = [] ∧ optTruthy ctx3.detected_domain then
        -- `LegalDomain(detected_domain)` succeeds only for schema enum
        -- values; a `ValueError` is caught and leaves the acts unchanged
        if legalDomainValues.contains (ctx3.detected_domain.getD "") then
          acts1 ++ jurisdiction_acts (ctx3.detected_domain.getD "")
        else acts1
      else acts1
    let acts3 := if acts2 = [] ∧ sections ≠ [] then acts2 ++ ["IPC", "BNS"] else acts2
    let ctx4 := { ctx3 with applicable_acts := acts3 }
    let ctx5 := { ctx4 with keywords := extract_keywords ctx.query }
    let ctx6 := { ctx5 with reformulated_query := some (reformulate_query ctx5) }
    (ctx6, none)

/-- `BaseAgent.execute` applied to the query agent. -/
def query_execute (o : QueryOracle) : AgentContext → AgentContext :=
  base_execute AgentType.query "Query Understanding" (query_process o)

/-! ## StatuteRetrievalAgent (statute_agent.py)

The structured store (`StatuteService`) and the vector store are external
collaborators, modelled by the oracle below.  `StatuteService`'s SQL
queries honour their `limit` argument (statute_service.py line 57 applies
`q.limit(limit)`), which the model reflects with `List.take`. -/

structure StatuteOracle where
  /-- Is a vector store available (after the lazy initialization of
  statute_agent.py lines 47-57)? -/
  vector_store : Bool
  /-- `StatuteService.get_section(section, act_code)`. -/
  get_section : String → String → Option StatuteRec
  /-- `vector_store.search_statutes(query, act_codes, domain, limit)`. -/
  vs_search_statutes : String → List String → Option String → Nat → List StatuteRec
  /-- `vector_store.search_documents(query, domain, limit)`. -/
  vs_search_documents : String → Option String → Nat → List StatuteRec
  /-- `StatuteService.search_statutes(query, act_codes, limit)` before the
  SQL `LIMIT` is applied. -/
  db_search_statutes : String → List String → List StatuteRec
  /-- `StatuteService.get_ipc_bns_mapping(ipc_section)`. -/
  get_ipc_bns_mapping : String → Option RawMapping

/-- The formatting of one raw mapping row
(`_get_cross_mappings`, statute_agent.py lines 158-173). -/
def format_mapping (m : RawMapping) : MappingRec :=
  { id := m.id.getD ""
    ipc_section := m.ipc_section.getD ""
    ipc_title := m.ipc_title.getD ""
    ipc_content := m.ipc_content.getD ""
    bns_section := m.bns_section.getD ""
    bns_title := m.bns_title.getD ""
    bns_content := m.bns_content.getD ""
    changes := m.changes
    punishment_change :=
      if m.punishment_changed then
        some { old := m.old_punishment.getD ""
               new := m.new_punishment.getD ""
               increased := m.punishment_increased }
      else none
    mapping_type := m.mapping_type.getD "exact" }

/-- `StatuteRetrievalAgent._get_cross_mappings` (statute_agent.py
148-176): for each IPC item with a truthy `section_number`, look up and
format its mapping. -/
def get_cross_mappings (o : StatuteOracle) (ipc_sections : List StatuteRec) :
    List MappingRec :=
  ipc_sections.filterMap (fun ipc =>
    match ipc.section_number with
    | none => none
    | some n => if n = "" then none else (o.get_ipc_bns_mapping n).map format_mapping)

/-- The conversion of a vector-store document hit into the
statute-shaped dict appended by statute_agent.py lines 116-122. -/
def doc_to_statute (doc : StatuteRec) : StatuteRec :=
  { id := doc.id
    content_en := some ((doc.content).getD ((doc.content_en).getD ""))
    source := some "document"
    domain := some ((doc.domain).getD ((doc.category).getD ""))
    filename := some ((doc.filename).getD "") }

/-- The section entities (statute_agent.py line 60). -/
def statute_sections (ctx : AgentContext) : List String :=
  (ctx.entities.filter (fun e => e.etype = "section")).map Entity.value

/-- `context.applicable_acts or ["IPC", "BNS"]` (line 68). -/
def statute_acts (ctx : AgentContext) : List String :=
  if ctx.applicable_acts = [] then ["IPC", "BNS"] else ctx.applicable_acts

/-- `context.reformulated_query or context.query` (lines 77, 127). -/
def statute_search_query (ctx : AgentContext) : String :=
  if optTruthy ctx.reformulated_query then ctx.reformulated_query.getD "" else ctx.query

/-- The domain filter (lines 80-84). -/
def statute_domain_filter (ctx : AgentContext) : Option String :=
  if optTruthy ctx.specified_domain ∧ ctx.specified_domain ≠ some "all" then
    ctx.specified_domain
  else if optTruthy ctx.detected_domain then ctx.detected_domain
  else none

/-- Phase 1, the exact section × act lookups (lines 66-73). -/
def statute_exact (o : StatuteOracle) (ctx : AgentContext) : List StatuteRec :=
  (statute_sections ctx).flatMap
    (fun s => (statute_acts ctx).filterMap (fun act => o.get_section s act))

/-- Phase 2a, the semantic statute hits (lines 88-93). -/
def statute_semantic (o : StatuteOracle) (ctx : AgentContext) : List StatuteRec :=
  o.vs_search_statutes (statute_search_query ctx) ctx.applicable_acts
    (statute_domain_filter ctx) 5

/-- Phase 2b, the document hits (lines 104-108). -/
def statute_docs (o : StatuteOracle) (ctx : AgentContext) : List StatuteRec :=
  o.vs_search_documents (statute_search_query ctx) (statute_domain_filter ctx) 3

/-- `StatuteRetrievalAgent.process` (statute_agent.py 34-146).

Phases, as in the source:
1. exact lookups: one `get_section` per section entity × act in
   `applicable_acts or ["IPC", "BNS"]`;
2. if a vector store is available, semantic statute hits and document
   hits, each filtered against `existing_ids` — a set computed from the
   exact hits only (line 97) and never refreshed afterwards;
3. if nothing was retrieved, a keyword search against the store with
   `limit=5`;
4. `ipc_bns_mappings` from the IPC-coded items.

The final `context.statutes` is NOT truncated: line 141 assigns the full
accumulated list. -/
def statute_process (o : StatuteOracle) (ctx : AgentContext) :
    AgentContext × Option PyErr :=
  let exact := statute_exact o ctx
  let retrieved :=
    if o.vector_store then
      let existing_ids := exact.map StatuteRec.id
      let addSem := (statute_semantic o ctx).filter
        (fun r => ¬ existing_ids.contains r.id)
      let addDocs :=
        ((statute_docs o ctx).filter (fun d => ¬ existing_ids.contains d.id)).map
          doc_to_statute
      exact ++ addSem ++ addDocs
    else exact
  let finalStatutes :=
    if retrieved = [] then
      (o.db_search_statutes (statute_search_query ctx) ctx.applicable_acts).take 5
    else retrieved
  let ipc_sections := finalStatutes.filter (fun s => s.act_code = some "IPC")
  let mappings := get_cross_mappings o ipc_sections
  ({ ctx with statutes := finalStatutes, ipc_bns_mappings := mappings }, none)

/-- `BaseAgent.execute` applied to the statute agent. -/
def statute_execute (o : StatuteOracle) : AgentContext → AgentContext :=
  base_execute AgentType.statute "Statute Retrieval" (statute_process o)

/-! ## A small Python-regex evaluator

`CitationAgent._clean_legal_text` is a pipeline of `re.sub` calls.  To
embed it faithfully we evaluate the exact patterns with a small
backtracking matcher implementing Python `re` semantics for the
constructs those patterns use: character classes, concatenation,
alternation (left preference), greedy `*` / `?` / `{m,n}`, capturing
groups, word boundaries, case-insensitive matching, and template
substitution where a backreference to an unmatched group expands to the
empty string (Python ≥ 3.5).  The matcher is fuel-indexed for
termination; every starred element of the embedded patterns consumes at
least one character per iteration, so the fuel supplied by the wrappers
below is never exhausted on any input. -/

/-- Regex abstract syntax (only the constructs the embedded patterns
use). -/
inductive RE where
  | eps : RE
  | cls (p : Char → Bool) : RE
  | cat (a b : RE) : RE
  | alt (a b : RE) : RE
  | star (a : RE) : RE
  | rep (a : RE) (lo hi : Nat) : RE
  | grp (n : Nat) (a : RE) : RE
  | wordB : RE

/-- `r?` (greedy). -/
def RE.opt (a : RE) : RE := RE.rep a 0 1

/-- `r+` (greedy). -/
def RE.plus (a : RE) : RE := RE.cat a (RE.star a)

/-- Sequence of a list of regexes. -/
def rcat (rs : List RE) : RE := rs.foldr RE.cat RE.eps

/-- Alternation with left preference over a list. -/
def ralt : List RE → RE
  | [] => RE.cls (fun _ => false)
  | [r] => r
  | r :: rs => RE.alt r (ralt rs)

/-- Literal string. -/
def rlit (s : String) : RE := rcat (s.data.map (fun c => RE.cls (fun x => x = c)))

/-- Captured groups: most recent capture first; a lookup miss means the
group did not participate in the match. -/
abbrev Caps := List (Nat × List Char)

/-- Class match under the case-insensitivity flag (ASCII folding, as in
the header note). -/
def clsMatch (ci : Bool) (p : Char → Bool) (c : Char) : Bool :=
  p c ∨ (ci ∧ (p c.toLower ∨ p c.toUpper))

/-- Word boundary between `prev` and the head of `s`. -/
def atBoundary (prev : Option Char) (s : List Char) : Bool :=
  let before := match prev with | none => false | some p => isPyWord p
  let after := match s with | [] => false | c :: _ => isPyWord c
  before ≠ after

/-- The backtracking matcher, continuation-passing.  `mat ci fuel re prev
s caps k` tries to match `re` at the head of `s` (`prev` is the previous
character, for `\b`), extending `caps`, and calls `k` on each candidate
way of matching, in Python preference order, returning the first success.
Greedy operators recurse only after consuming input, so `fuel`
proportional to `pattern size + input length` suffices for the embedded
patterns. -/
def mat (ci : Bool) :
    Nat → RE → Option Char → List Char → Caps →
    (Option Char → List Char → Caps → Option (List Char × Caps)) →
    Option (List Char × Caps)
  | 0, _, _, _, _, _ => none
  | _ + 1, RE.eps, prev, s, caps, k => k prev s caps
  | _ + 1, RE.cls p, _, s, caps, k =>
    match s with
    | [] => none
    | c :: rest => if clsMatch ci p c then k (some c) rest caps else none
  | fuel + 1, RE.cat a b, prev, s, caps, k =>
    mat ci fuel a prev s caps (fun p2 s2 c2 => mat ci fuel b p2 s2 c2 k)
  | fuel + 1, RE.alt a b, prev, s, caps, k =>
    match mat ci fuel a prev s caps k with
    | some r => some r
    | none => mat ci fuel b prev s caps k
  | fuel + 1, RE.star a, prev, s, caps, k =>
    match mat ci fuel a prev s caps (fun p2 s2 c2 =>
      if s2.length < s.length then mat ci fuel (RE.star a) p2 s2 c2 k else none) with
    | some r => some r
    | none => k prev s caps
  | fuel + 1, RE.rep a lo hi, prev, s, caps, k =>
    if lo > 0 then
      mat ci fuel a prev s caps (fun p2 s2 c2 =>
        mat ci fuel (RE.rep a (lo - 1) (hi - 1)) p2 s2 c2 k)
    else if hi > 0 then
      match mat ci fuel a prev s caps (fun p2 s2 c2 =>
        mat ci fuel (RE.rep a 0 (hi - 1)) p2 s2 c2 k) with
      | some r => some r
      | none => k prev s caps
    else k prev s caps
  | fuel + 1, RE.grp n a, prev, s, caps, k =>
    mat ci fuel a prev s caps (fun p2 s2 c2 =>
      k p2 s2 ((n, s.take (s.length - s2.length)) :: c2))
  | _ + 1, RE.wordB, prev, s, caps, k =>
    if atBoundary prev s then k prev s caps else none

/-- Fuel for one match attempt on a suffix of length `n`. -/
def matFuel (n : Nat) : Nat := 4 * n + 400

/-- Try to match `re` at the current position; on success return
(matched prefix, remainder, captures). -/
def matchHere (ci : Bool) (re : RE) (prev : Option Char) (s : List Char) :
    Option (List Char × List Char × Caps) :=
  match mat ci (matFuel s.length) re prev s [] (fun _ s2 c2 => some (s2, c2)) with
  | none => none
  | some (rest, caps) => some (s.take (s.length - rest.length), rest, caps)

/-- `re.search`: the leftmost match, returned as
(text before the match, matched text, remainder, captures). -/
def reSearchAux (ci : Bool) (re : RE) :
    Nat → Option Char → List Char → Option (List Char × List Char × List Char × Caps)
  | 0, _, _ => none
  | _ + 1, prev, [] =>
    (matchHere ci re prev []).map (fun m => ([], m.1, m.2.1, m.2.2))
  | fuel + 1, prev, c :: rest =>
    match matchHere ci re prev (c :: rest) with
    | some (m, r, caps) => some ([], m, r, caps)
    | none =>
      (reSearchAux ci re fuel (some c) rest).map
        (fun q => (c :: q.1, q.2.1, q.2.2.1, q.2.2.2))

def reSearch (ci : Bool) (re : RE) (s : List Char) :
    Option (List Char × List Char × List Char × Caps) :=
  reSearchAux ci re (s.length + 1) none s

/-- Substitution templates: literal pieces and group references. -/
inductive Tmpl where
  | lit (s : String) : Tmpl
  | ref (n : Nat) : Tmpl

/-- Expand a template; an unmatched group expands to `""` (Python ≥ 3.5). -/
def expandTmpl (caps : Caps) (ts : List Tmpl) : List Char :=
  ts.flatMap (fun t =>
    match t with
    | Tmpl.lit s => s.data
    | Tmpl.ref n => ((caps.lookup n).getD []))

/-- `re.sub`: replace every non-overlapping leftmost match.  After an
empty match Python copies one character and continues; after a non-empty
match scanning resumes at its end. -/
def reSubAux (ci : Bool) (re : RE) (ts : List Tmpl) :
    Nat → Option Char → List Char → List Char
  | 0, _, s => s
  | _ + 1, prev, [] =>
    (match matchHere ci re prev [] with
     | some (_, _, caps) => expandTmpl caps ts
     | none => [])
  | fuel + 1, prev, s =>
    match reSearchAux ci re (s.length + 1) prev s with
    | none => s
    | some (pre, m, rest, caps) =>
      if m = [] then
        match rest with
        | [] => pre ++ expandTmpl caps ts
        | c :: rest2 =>
          pre ++ expandTmpl caps ts ++ [c] ++
            reSubAux ci re ts fuel (some c) rest2
      else
        let prev2 := m.getLast? 
        pre ++ expandTmpl caps ts ++ reSubAux ci re ts fuel prev2 rest

def reSub (ci : Bool) (re : RE) (ts : List Tmpl) (s : List Char) : List Char :=
  reSubAux ci re ts (s.length + 1) none s

/-! ## CitationAgent._clean_legal_text (citation_agent.py 62-187) -/

def dgt : RE := RE.cls isDigitChar
def wsC : RE := RE.cls isPySpace
def wss : RE := RE.star wsC
def ws1 : RE := RE.plus wsC
def upperAZ : RE := RE.cls (fun c => 'A' ≤ c ∧ c ≤ 'Z')
def lowerAZ : RE := RE.cls (fun c => 'a' ≤ c ∧ c ≤ 'z')
def latinC : RE := RE.cls isLatinLetter

/-- `\bp1\s*p2\s*...\s*pn\b`: an OCR-broken word. -/
def bwp (parts : List String) : RE :=
  rcat ([RE.wordB] ++ (parts.map rlit).intersperse wss ++ [RE.wordB])

/-- As `bwp` but with a final optional `s` (`...s?\b`). -/
def bwps (parts : List String) : RE :=
  rcat ([RE.wordB] ++ (parts.map rlit).intersperse wss ++ [RE.opt (rlit "s"), RE.wordB])

/-- `w\.?e\.?f\.?` -/
def wefRE : RE :=
  rcat [rlit "w", RE.opt (rlit "."), rlit "e", RE.opt (rlit "."), rlit "f", RE.opt (rlit ".")]

/-- `\d{1,2}-\d{1,2}-\d{4}` -/
def dateRE : RE :=
  rcat [RE.rep dgt 1 2, rlit "-", RE.rep dgt 1 2, rlit "-", RE.rep dgt 4 4]

/-- A dash `[-—]`. -/
def dashCls : RE := RE.cls (fun c => c = '-' ∨ c = '—')

/-- The `amendment_patterns` list (citation_agent.py 70-82), in order;
each is substituted by a single space. -/
def amendment_patterns : List RE :=
  [ -- \d+\.\s*Subs\.?\s*by\s*(Act\s*)?\d+\s*of\s*\d{4},?\s*s\.?\s*\d+[^.]*\.?
    rcat [RE.plus dgt, rlit ".", wss, rlit "Subs", RE.opt (rlit "."), wss, rlit "by",
          wss, RE.opt (RE.grp 1 (RE.cat (rlit "Act") wss)), RE.plus dgt, wss,
          rlit "of", wss, RE.rep dgt 4 4, RE.opt (rlit ","), wss, rlit "s",
          RE.opt (rlit "."), wss, RE.plus dgt,
          RE.star (RE.cls (fun c => c ≠ '.')), RE.opt (rlit ".")]
  , -- \d+\.\s*Ins\.?\s*by\s*(Act\s*)?\d+\s*of\s*\d{4}[^.]*\.?
    rcat [RE.plus dgt, rlit ".", wss, rlit "Ins", RE.opt (rlit "."), wss, rlit "by",
          wss, RE.opt (RE.grp 1 (RE.cat (rlit "Act") wss)), RE.plus dgt, wss,
          rlit "of", wss, RE.rep dgt 4 4,
          RE.star (RE.cls (fun c => c ≠ '.')), RE.opt (rlit ".")]
  , -- \d+\.\s*Omitted\s*by\s*(Act\s*)?\d+\s*of\s*\d{4}[^.]*\.?
    rcat [RE.plus dgt, rlit ".", wss, rlit "Omitted", wss, rlit "by",
          wss, RE.opt (RE.grp 1 (RE.cat (rlit "Act") wss)), RE.plus dgt, wss,
          rlit "of", wss, RE.rep dgt 4 4,
          RE.star (RE.cls (fun c => c ≠ '.')), RE.opt (rlit ".")]
  , -- \(w\.?e\.?f\.?\s*\d{1,2}-\d{1,2}-\d{4}\)
    rcat [rlit "(", wefRE, wss, dateRE, rlit ")"]
  , -- \[w\.?e\.?f\.?\s*\d{1,2}-\d{1,2}-\d{4}\]
    rcat [rlit "[", wefRE, wss, dateRE, rlit "]"]
  , -- w\.?e\.?f\.?\s*\d{1,2}-\d{1,2}-\d{4}
    rcat [wefRE, wss, dateRE]
  , -- \d+\[
    RE.cat (RE.plus dgt) (rlit "[")
  , -- \]\d+
    RE.cat (rlit "]") (RE.plus dgt)
  , -- \|\|
    rlit "||"
  , -- ibid\.,?\s*for\s*[-—]
    rcat [rlit "ibid.", RE.opt (rlit ","), wss, rlit "for", wss, dashCls]
  , -- for\s*[-—]\s*the\s+
    rcat [rlit "for", wss, dashCls, wss, rlit "the", ws1]
  ]

/-- The `ocr_fixes` table (citation_agent.py 88-161), in order. -/
def ocr_fixes : List (RE × List Tmpl) :=
  [ (bwp ["o", "therw", "ise"], [Tmpl.lit "otherwise"])
  , (bwp ["pun", "ish", "able"], [Tmpl.lit "punishable"])
  , (bwp ["pun", "ish", "ment"], [Tmpl.lit "punishment"])
  , (bwp ["impr", "ison", "ment"], [Tmpl.lit "imprisonment"])
  , (bwp ["impr", "ison"], [Tmpl.lit "imprison"])
  , (rcat [RE.wordB, rlit "publ", wss, rlit "ish", wss,
           RE.opt (RE.grp 1 (ralt [rlit "es", rlit "ed", rlit "ing"])), RE.wordB],
     [Tmpl.lit "publish", Tmpl.ref 1])
  , (bwp ["transmitt", "ing"], [Tmpl.lit "transmitting"])
  , (bwp ["transmit", "ted"], [Tmpl.lit "transmitted"])
  , (bwp ["off", "ence"], [Tmpl.lit "offence"])
  , (bwp ["off", "ender"], [Tmpl.lit "offender"])
  , (bwps ["com", "mit"], [Tmpl.lit "commit"])
  , (bwps ["con", "spire"], [Tmpl.lit "conspire"])
  , (bwp ["terr", "or", "ism"], [Tmpl.lit "terrorism"])
  , (bwp ["las", "civ", "ious"], [Tmpl.lit "lascivious"])
  , (bwp ["pru", "ri", "ent"], [Tmpl.lit "prurient"])
  , (bwp ["elec", "tron", "ic"], [Tmpl.lit "electronic"])
  , (bwp ["mat", "er", "ial"], [Tmpl.lit "material"])
  , (bwp ["obs", "cene"], [Tmpl.lit "obscene"])
  , (bwps ["in", "div", "id", "ual"], [Tmpl.lit "individual"])
  , (bwp ["na", "tion"], [Tmpl.lit "nation"])
  , (bwp ["cy", "ber"], [Tmpl.lit "cyber"])
  , (bwp ["sec", "tion"], [Tmpl.lit "section"])
  , (bwp ["Sec", "tion"], [Tmpl.lit "Section"])
  , (bwp ["who", "ever"], [Tmpl.lit "whoever"])
  , (bwp ["Who", "ever"], [Tmpl.lit "Whoever"])
  , (bwp ["ex", "tend"], [Tmpl.lit "extend"])
  , (bwp ["caus", "es"], [Tmpl.lit "causes"])
  , (bwp ["ef", "fect"], [Tmpl.lit "effect"])
  , (bwp ["in", "ter", "est"], [Tmpl.lit "interest"])
  , (bwps ["ap", "peal"], [Tmpl.lit "appeal"])
  , (bwp ["per", "son"], [Tmpl.lit "person"])
  , (bwp ["Per", "son"], [Tmpl.lit "Person"])
  , (bwp ["sub", "ject"], [Tmpl.lit "subject"])
  , (bwp ["pro", "vi", "sion"], [Tmpl.lit "provision"])
  , (bwp ["Pro", "vi", "sion"], [Tmpl.lit "Provision"])
  , (bwp ["gov", "ern", "ment"], [Tmpl.lit "government"])
  , (bwp ["Gov", "ern", "ment"], [Tmpl.lit "Government"])
  , (bwp ["law", "ful"], [Tmpl.lit "lawful"])
  , (bwp ["un", "law", "ful"], [Tmpl.lit "unlawful"])
  , (bwp ["wil", "ful"], [Tmpl.lit "wilful"])
  , (bwp ["know", "ing", "ly"], [Tmpl.lit "knowingly"])
  , (bwp ["in", "tent", "ion"], [Tmpl.lit "intention"])
  , (bwp ["ac", "cused"], [Tmpl.lit "accused"])
  , (bwp ["con", "vict", "ed"], [Tmpl.lit "convicted"])
  , (bwp ["sen", "tence"], [Tmpl.lit "sentence"])
  , (bwp ["pros", "ecu", "tion"], [Tmpl.lit "prosecution"])
  , (bwp ["evi", "dence"], [Tmpl.lit "evidence"])
  , (bwp ["wit", "ness"], [Tmpl.lit "witness"])
  , (bwp ["judg", "ment"], [Tmpl.lit "judgment"])
  , (bwp ["ver", "dict"], [Tmpl.lit "verdict"])
  , (bwp ["crim", "in", "al"], [Tmpl.lit "criminal"])
  , (bwp ["Crim", "in", "al"], [Tmpl.lit "Criminal"])
  , (bwp ["civ", "il"], [Tmpl.lit "civil"])
  , (bwp ["Civ", "il"], [Tmpl.lit "Civil"])
  , (bwp ["liab", "il", "ity"], [Tmpl.lit "liability"])
  , (bwp ["liab", "le"], [Tmpl.lit "liable"])
  , (bwps ["dam", "age"], [Tmpl.lit "damage"])
  , (bwp ["com", "pen", "sa", "tion"], [Tmpl.lit "compensation"])
  , (rcat [rlit "f", ws1, rlit "or", RE.wordB], [Tmpl.lit "for"])
  , (rcat [RE.wordB, rlit "f", ws1, rlit "orm", RE.wordB], [Tmpl.lit "form"])
  , (rcat [RE.wordB, rlit "t", ws1, rlit "o", RE.wordB], [Tmpl.lit "to"])
  , (bwp ["ego", "vernance"], [Tmpl.lit "e-governance"])
  , (bwp ["egovernance"], [Tmpl.lit "e-governance"])
  , (bwp ["ecommerce"], [Tmpl.lit "e-commerce"])
  , (bwp ["abet", "ment"], [Tmpl.lit "abetment"])
  , (bwp ["encry", "ption"], [Tmpl.lit "encryption"])
  , (bwp ["pre", "scribe"], [Tmpl.lit "prescribe"])
  , (bwp ["pro", "motion"], [Tmpl.lit "promotion"])
  , (bwp ["Chair", "person"], [Tmpl.lit "Chairperson"])
  , (bwp ["adju", "dicat", "ing"], [Tmpl.lit "adjudicating"])
  , (bwp ["Tri", "bunal"], [Tmpl.lit "Tribunal"])
  , (bwp ["Appel", "late"], [Tmpl.lit "Appellate"])
  ]

/-- The punctuation / spacing fixes of steps 2-3
(citation_agent.py 166-174), in order; these `re.sub` calls carry no
`IGNORECASE` flag. -/
def spacing_fixes : List (RE × List Tmpl) :=
  [ (RE.cat (RE.grp 1 (RE.cls (fun c => c = ',' ∨ c = ';' ∨ c = ':')))
        (RE.grp 2 latinC),
     [Tmpl.ref 1, Tmpl.lit " ", Tmpl.ref 2])
  , (RE.cat (RE.grp 1 latinC) (RE.grp 2 (rlit "(")),
     [Tmpl.ref 1, Tmpl.lit " ", Tmpl.ref 2])
  , (RE.cat (RE.grp 1 (rlit ")")) (RE.grp 2 latinC),
     [Tmpl.ref 1, Tmpl.lit " ", Tmpl.ref 2])
  , (RE.cat (RE.grp 1 (RE.plus dgt)) (RE.grp 2 (RE.cat upperAZ (rlit "."))),
     [Tmpl.ref 1, Tmpl.ref 2, Tmpl.lit " "])
  , (rlit ".–", [Tmpl.lit ". "])
  , (rlit "–", [Tmpl.lit " - "])
  ]

/-- Python `str.strip()` on a character list. -/
def stripList (s : List Char) : List Char :=
  ((s.dropWhile isPySpace).reverse.dropWhile isPySpace).reverse

/-- The step-5 search pattern `[.]\s*([A-Z][a-z])`. -/
def sentence_start_pat : RE :=
  rcat [rlit ".", wss, RE.grp 1 (RE.cat upperAZ lowerAZ)]

/-- `CitationAgent._clean_legal_text` (citation_agent.py 62-187):
amendment-annotation removal, OCR repairs, punctuation spacing,
whitespace collapse, and the leading-fragment cut. -/
def clean_legal_text (text : String) : String :=
  if text = "" then "" else
  let t0 := amendment_patterns.foldl
    (fun t p => reSub true p [Tmpl.lit " "] t) text.data
  let t1 := ocr_fixes.foldl (fun t pr => reSub true pr.1 pr.2 t) t0
  let t2 := spacing_fixes.foldl (fun t pr => reSub false pr.1 pr.2 t) t1
  let t3 := stripList (reSub false (RE.plus wsC) [Tmpl.lit " "] t2)
  let t4 :=
    match t3 with
    | [] => t3
    | c :: _ =>
      if c.isLower ∨ startsWithL false t3 "of ".data ∨ startsWithL false t3 "for ".data then
        match reSearch false sentence_start_pat t3 with
        | some (pre, _, _, _) => t3.drop (pre.length + 2)
        | none => t3
      else t3
  ⟨t4⟩

/-! ## CitationAgent (citation_agent.py 189-388) -/

/-- `OFFICIAL_SOURCES[key]["name"]` with the fallback of
`OFFICIAL_SOURCES.get(source, {}).get("name", source)`. -/
def official_source_name (key : String) : String :=
  if key = "gazette" then "Official Gazette of India"
  else if key = "indiankanoon" then "Indian Kanoon"
  else if key = "sci" then "Supreme Court of India"
  else if key = "legislative" then "Legislative Department"
  else if key = "lawcommission" then "Law Commission of India"
  else key

/-- The fixed `IPC_SECTION_DOCS` lookup (citation_agent.py 239-257). -/
def IPC_SECTION_DOCS : List (String × String) :=
  [ ("302", "1560742"), ("304", "1279877"), ("307", "1290514")
  , ("376", "1279834"), ("420", "1436241"), ("498A", "110081")
  , ("354", "1279834"), ("306", "871857"), ("379", "1279854")
  , ("384", "1279782"), ("392", "1279793"), ("406", "1569253")
  , ("415", "1306487"), ("499", "1383364"), ("500", "1436475")
  , ("120B", "635852"), ("34", "37788") ]

/-- Character-count string truncation (Python slicing is by code
points). -/
def strTake (s : String) (n : Nat) : String := ⟨s.data.take n⟩

/-- `CitationAgent._create_statute_citation` (citation_agent.py 229-305). -/
def create_statute_citation (statute : StatuteRec) (citation_id : Nat) : Citation :=
  let act_code := statute.act_code.getD "IPC"
  let sectionNo := statute.section_number.getD ""
  let act_name := statute.act_name.getD ""
  let title := statute.title_en.getD ""
  let content := statute.content_en.getD ""
  let url :=
    if act_code = "IPC" then
      let doc_id := (IPC_SECTION_DOCS.lookup sectionNo).getD ""
      if doc_id ≠ "" then "https://indiankanoon.org/doc/" ++ doc_id ++ "/"
      else "https://indiankanoon.org/search/?formInput=section%20" ++ sectionNo ++ "%20IPC"
    else if act_code = "BNS" then
      "https://indiankanoon.org/search/?formInput=section%20" ++ sectionNo ++
        "%20BNS%20Bharatiya%20Nyaya%20Sanhita"
    else
      "https://indiankanoon.org/search/?formInput=" ++ act_code ++ "%20section%20" ++ sectionNo
  let excerpt0 :=
    if content.length > 500 then strTake content 500 ++ "..." else content
  let excerpt1 :=
    if excerpt0 = "" then "Section " ++ sectionNo ++ " of " ++ act_name ++ ": " ++ title
    else excerpt0
  let excerpt := clean_legal_text excerpt1
  let citation_title :=
    if sectionNo ≠ "" ∧ title ≠ "" then
      (if act_name ≠ "" then act_name else act_code) ++ " - Section " ++ sectionNo ++ ": " ++ title
    else if sectionNo ≠ "" then
      (if act_name ≠ "" then act_name else act_code) ++ " - Section " ++ sectionNo
    else if title ≠ "" then
      (if act_name ≠ "" then act_name else act_code) ++ ": " ++ title
    else
      (if act_name ≠ "" then act_name else act_code) ++ " - Legal Provision"
  { id := toString citation_id
    title := citation_title
    title_hi := statute.title_hi.getD ""
    source := "indiankanoon"
    source_name := "Indian Kanoon"
    url := url
    excerpt := some excerpt
    year := statute.year_enacted
    ctype := "statute"
    verified := true
    section_number := some (if sectionNo ≠ "" then sectionNo else "N/A")
    act_code := some act_code }

/-- `re.sub(r'[^a-zA-Z0-9\s]', '', case_name)` followed by
`.replace(' ', '%20')` (citation_agent.py 317-318). -/
def encode_case_name (case_name : String) : String :=
  let safe := case_name.data.filter (fun c => isLatinLetter c ∨ isDigitChar c ∨ isPySpace c)
  ⟨safe.flatMap (fun c => if c = ' ' then "%20".data else [c])⟩

/-- `CitationAgent._create_case_citation` (citation_agent.py 307-357). -/
def create_case_citation (case : CaseRec) (citation_id : Nat) : Citation :=
  let case_name := case.case_name.getD ""
  let citation_string := case.citation_string.getD ""
  let source_url0 := case.source_url.getD ""
  let court := case.court.getD ""
  let su :=
    if source_url0 = "" then
      let encoded := encode_case_name case_name
      if court = "supreme_court" then
        ("https://indiankanoon.org/search/?formInput=" ++ encoded ++ "%20supreme%20court",
         "indiankanoon")
      else if court = "high_court" then
        ("https://indiankanoon.org/search/?formInput=" ++ encoded ++ "%20high%20court",
         "indiankanoon")
      else
        ("https://indiankanoon.org/search/?formInput=" ++ encoded, "indiankanoon")
    else
      (source_url0, if strContains source_url0 "indiankanoon" then "indiankanoon" else "sci")
  let title :=
    if citation_string ≠ "" then case_name ++ " (" ++ citation_string ++ ")" else case_name
  let summary := case.summary_en.getD ""
  let excerpt0 : Option String :=
    if summary.length > 300 then some (strTake summary 300 ++ "...")
    else if summary ≠ "" then some summary
    else none
  let excerpt := excerpt0.map clean_legal_text
  { id := toString citation_id
    title := title
    title_hi := case.case_name_hi.getD ""
    source := su.2
    source_name := official_source_name su.2
    url := su.1
    excerpt := excerpt
    year := case.reporting_year
    ctype := "case_law"
    court := some (case.court_name.getD court)
    is_landmark := some case.is_landmark
    verified := true }

/-- `CitationAgent._create_mapping_citation` (citation_agent.py 359-375). -/
def create_mapping_citation (mapping : MappingRec) (citation_id : Nat) : Citation :=
  { id := toString citation_id
    title := "IPC Section " ++ mapping.ipc_section ++ " → BNS Section " ++
             mapping.bns_section ++ " Mapping"
    title_hi := "IPC धारा " ++ mapping.ipc_section ++ " → BNS धारा " ++
                mapping.bns_section ++ " मैपिंग"
    source := "gazette"
    source_name := official_source_name "gazette"
    url := "https://egazette.gov.in/WriteReadData/2023/248044.pdf"
    excerpt := some ("Cross-reference between old IPC Section " ++ mapping.ipc_section ++
                     " and new BNS Section " ++ mapping.bns_section)
    year := some 2023
    ctype := "mapping"
    verified := true }

/-- The citation list accumulated by `CitationAgent.process` before
deduplication (citation_agent.py 192-218): statutes, then case laws,
then mappings, with `citation_id` counting from 1.  Each constructor
returns a (truthy) dict, so every loop iteration appends and increments. -/
def generated_citations (sts : List StatuteRec) (cls : List CaseRec)
    (mps : List MappingRec) : List Citation :=
  (sts.enum.map (fun p => create_statute_citation p.2 (p.1 + 1))) ++
  (cls.enum.map (fun p => create_case_citation p.2 (p.1 + 1 + sts.length))) ++
  (mps.enum.map (fun p => create_mapping_citation p.2 (p.1 + 1 + sts.length + cls.length)))

/-- `CitationAgent._deduplicate_citations` (citation_agent.py 377-388):
keep the first citation for each `url`. -/
def deduplicate_citations_aux (seen : List String) :
    List Citation → List Citation
  | [] => []
  | c :: rest =>
    if seen.contains c.url then deduplicate_citations_aux seen rest
    else c :: deduplicate_citations_aux (c.url :: seen) rest

def deduplicate_citations (cs : List Citation) : List Citation :=
  deduplicate_citations_aux [] cs

/-- `CitationAgent.process` (citation_agent.py 189-227); total. -/
def citation_process (ctx : AgentContext) : AgentContext × Option PyErr :=
  let cits :=
    deduplicate_citations
      (generated_citations ctx.statutes ctx.case_laws ctx.ipc_bns_mappings)
  ({ ctx with citations := cits }, none)

/-- `BaseAgent.execute` applied to the citation agent. -/
def citation_execute : AgentContext → AgentContext :=
  base_execute AgentType.citation "Citation Agent" citation_process

/-! ## HybridSearchService (hybrid_search_service.py) and
RerankerService (reranker_service.py)

Scores are rationals; the dense and sparse retrieval legs
(`search_vector`, `search_bm25`) are external (ANN index / BM25 corpus)
and are modelled as oracle outputs; `_merge_results`, `hybrid_search` and
`RerankerService.rerank` are embedded from the source. -/

/-- A search-result dict.  Keys that a phase may not have set yet are
`Option` fields. -/
structure SDoc where
  content : String
  vector_score : Option ℚ := none
  bm25_score : Option ℚ := none
  vector_score_norm : Option ℚ := none
  bm25_score_norm : Option ℚ := none
  hybrid_score : Option ℚ := none
  rerank_score : Option ℚ := none
  source : String := ""
deriving Repr, DecidableEq

/-- `max(scores)` / `min(scores)` over a non-empty list (Python built-ins). -/
def listMax (h : ℚ) (t : List ℚ) : ℚ := t.foldl max h
def listMin (h : ℚ) (t : List ℚ) : ℚ := t.foldl min h

/-- The inner `normalize_scores` of `_merge_results`
(hybrid_search_service.py 320-332), for the `vector_score` key. -/
def normalize_scores_vector (results : List SDoc) : List SDoc :=
  match results.map (fun r => r.vector_score.getD 0) with
  | [] => results
  | s :: ss =>
    let mx := listMax s ss
    let mn := listMin s ss
    results.map (fun r =>
      let sc := r.vector_score.getD 0
      let nsc := if mx > mn then (sc - mn) / (mx - mn) else 1
      { r with vector_score_norm := some nsc })

/-- `normalize_scores` for the `bm25_score` key. -/
def normalize_scores_bm25 (results : List SDoc) : List SDoc :=
  match results.map (fun r => r.bm25_score.getD 0) with
  | [] => results
  | s :: ss =>
    let mx := listMax s ss
    let mn := listMin s ss
    results.map (fun r =>
      let sc := r.bm25_score.getD 0
      let nsc := if mx > mn then (sc - mn) / (mx - mn) else 1
      { r with bm25_score_norm := some nsc })

/-- Insert into a content-keyed insertion-ordered dict: overwrite in
place if the key exists, else append (Python dict semantics). -/
def dictInsert (m : List SDoc) (d : SDoc) : List SDoc :=
  if m.any (fun x => x.content = d.content) then
    m.map (fun x => if x.content = d.content then d else x)
  else m ++ [d]

/-- The BM25 merge step of `_merge_results` (lines 347-356): add the
weighted normalized BM25 score onto an existing entry (marking it
`hybrid`), or insert a new entry. -/
def mergeBm25Step (bm25_weight : ℚ) (m : List SDoc) (d : SDoc) : List SDoc :=
  if m.any (fun x => x.content = d.content) then
    m.map (fun x =>
      if x.content = d.content then
        { x with
          hybrid_score := some (x.hybrid_score.getD 0 + d.bm25_score_norm.getD 0 * bm25_weight)
          source := "hybrid" }
      else x)
  else m ++ [{ d with hybrid_score := some (d.bm25_score_norm.getD 0 * bm25_weight) }]

/-- Stable descending insertion: the new element goes after every
element whose key is ≥ its key. -/
def insertDescBy (key : SDoc → ℚ) (d : SDoc) : List SDoc → List SDoc
  | [] => [d]
  | x :: xs => if key x < key d then d :: x :: xs else x :: insertDescBy key d xs

/-- Stable descending sort (insertion sort; extensionally equal to
Python's stable `list.sort(key=..., reverse=True)`). -/
def sortDescBy (key : SDoc → ℚ) (l : List SDoc) : List SDoc :=
  l.foldl (fun acc d => insertDescBy key d acc) []

/-- `HybridSearchService._merge_results` (hybrid_search_service.py
300-362). -/
def merge_results (vector_results bm25_results : List SDoc)
    (vector_weight bm25_weight : ℚ) : List SDoc :=
  let vnorm := normalize_scores_vector vector_results
  let bnorm := normalize_scores_bm25 bm25_results
  let afterVector := vnorm.foldl
    (fun m doc => dictInsert m
      { doc with hybrid_score := some (doc.vector_score_norm.getD 0 * vector_weight) })
    []
  let merged := bnorm.foldl (mergeBm25Step bm25_weight) afterVector
  sortDescBy (fun x => x.hybrid_score.getD 0) merged

/-- `RerankerService.rerank` (reranker_service.py 69-139).
`scores?` is the cross-encoder oracle: `none` models an unavailable
model or a failed `compute_score` call (both return `documents[:top_k]`).
When scores are produced, Python assigns them by `zip`; if fewer scores
than documents were produced the filter raises `KeyError` on an unscored
document and the `except` branch returns `documents[:top_k]` — the model
folds that case into the fallback. -/
def rerank (scores? : Option (List ℚ)) (documents : List SDoc)
    (top_k : Nat) (score_threshold : ℚ) : List SDoc :=
  if documents = [] then []
  else
    match scores? with
    | none => documents.take top_k
    | some scores =>
      if scores.length < documents.length then documents.take top_k
      else
        let docs2 := documents.zipWith (fun d s => { d with rerank_score := some s }) scores
        let filtered := docs2.filter (fun d => d.rerank_score.getD 0 ≥ score_threshold)
        (sortDescBy (fun d => d.rerank_score.getD 0) filtered).take top_k

/-- External legs of the hybrid engine. -/
structure HybridOracle where
  /-- `search_vector(query, n_results, domain_filter)`: dense hits with
  `vector_score` set (hybrid_search_service.py 128-188). -/
  search_vector : String → Nat → Option String → List SDoc
  /-- `search_bm25(query, n_results, domain_filter)`: sparse hits with
  `bm25_score` set (lines 190-245). -/
  search_bm25 : String → Nat → Option String → List SDoc
  /-- Is `self.reranker_service` set? -/
  reranker_available : Bool
  /-- The cross-encoder scores for (query, candidate list), or `none`
  when the model is unavailable or scoring raises. -/
  rerank_scores : String → List SDoc → Option (List ℚ)

/-- `HybridSearchService.hybrid_search` (hybrid_search_service.py
247-298). -/
def hybrid_search (o : HybridOracle) (query : String) (n_results : Nat)
    (domain_filter : Option String) (vector_weight bm25_weight : ℚ)
    (use_reranking : Bool) (rerank_threshold : ℚ) : List SDoc :=
  let retrieve_count := n_results * 4
  let vector_results := o.search_vector query retrieve_count domain_filter
  let bm25_results := o.search_bm25 query retrieve_count domain_filter
  let merged := merge_results vector_results bm25_results vector_weight bm25_weight
  if use_reranking ∧ o.reranker_available then
    rerank (o.rerank_scores query merged) merged n_results rerank_threshold
  else
    merged.take n_results

/-! ## The concrete pipeline

The case-law, regulatory, summarization and response agents are not
needed by any claim; their (total) `execute` functions are oracle
parameters.  The query, statute and citation agents are the embedded
ones. -/

structure PipelineOracles where
  q : QueryOracle
  s : StatuteOracle
  case_exec : AgentContext → AgentContext
  regulatory_exec : AgentContext → AgentContext
  summary_exec : AgentContext → AgentContext
  response_exec : AgentContext → AgentContext

/-- The pipeline `AgentOrchestrator.__init__` constructs. -/
def standard_pipeline (o : PipelineOracles) : List Agent :=
  mkPipeline (query_execute o.q) (statute_execute o.s) o.case_exec
    o.regulatory_exec citation_execute o.summary_exec o.response_exec

/-- A structured/vector store with no data. -/
def trivialStatuteOracle : StatuteOracle :=
  { vector_store := false
    get_section := fun _ _ => none
    vs_search_statutes := fun _ _ _ _ => []
    vs_search_documents := fun _ _ _ => []
    db_search_statutes := fun _ _ => []
    get_ipc_bns_mapping := fun _ => none }

/-- A query-agent oracle whose LLM always answers "no" (so the gate, if
it were ever consulted, would reject). -/
def okQueryOracle : QueryOracle :=
  { ollama_init := Except.ok ()
    llm := fun _ => Except.ok "no" }

/-- A query-agent oracle whose Ollama initialization raises. -/
def failQueryOracle : QueryOracle :=
  { ollama_init := Except.error (PyErr.exc "Ollama service unavailable")
    llm := fun _ => Except.ok "yes" }

def samplePipelineOracles (q : QueryOracle) : PipelineOracles :=
  { q := q
    s := trivialStatuteOracle
    case_exec := id
    regulatory_exec := id
    summary_exec := id
    response_exec := id }

def isResponseEvent : StreamEvent → Bool
  | StreamEvent.response _ _ => true
  | _ => false

def isCompleteEvent : StreamEvent → Bool
  | StreamEvent.complete _ => true
  | _ => false

/-! ## Claim C10 -/

/-- C10: a freshly constructed `AgentContext` defines no `is_relevant`
attribute at all; therefore, for any run in which the QueryAnalyzer's
`process` raises an exception before assigning `is_relevant`, the
orchestrator's read of `context.is_relevant` raises `AttributeError` and
`process_query` propagates an exception instead of returning a response
payload.  (In fact the read at orchestrator.py line 104 happens on the
first loop iteration, before any agent runs, so the conclusion holds for
every run.) -/
theorem C10_missing_is_relevant_attribute :
    (∀ (q l : String) (sid dom : Option String),
      (AgentContext.init q l sid dom).is_relevant = none) ∧
    (∀ (o : PipelineOracles) (q l : String) (sid dom : Option String) (e : PyErr),
      o.q.ollama_init = Except.error e →
      process_query (standard_pipeline o) q l sid dom =
        Except.error (PyErr.attributeError "is_relevant")) := by
  refine ⟨fun q l sid dom => rfl, fun o q l sid dom e _ => rfl⟩

/-- Witness for C10 at a concrete failing oracle and input. -/
theorem C10_missing_is_relevant_attribute_witness :
    (AgentContext.init "What is theft?" "en" none none).is_relevant = none ∧
    process_query (standard_pipeline (samplePipelineOracles failQueryOracle))
      "What is theft?" "en" none none =
      Except.error (PyErr.attributeError "is_relevant") :=
  ⟨C10_missing_is_relevant_attribute.1 "What is theft?" "en" none none,
   C10_missing_is_relevant_attribute.2 (samplePipelineOracles failQueryOracle)
     "What is theft?" "en" none none (PyErr.exc "Ollama service unavailable") rfl⟩

/-! ## Claim C1 -/

/-- C1 (code evaluated at the failing input): on the very input the spec
uses for the rejection scenario (`"divorce grounds under Hindu law"`
with specified domain `"traffic"`), `process_query` raises
`AttributeError` on its first read of `context.is_relevant`
(orchestrator.py line 104) before the QueryAnalyzer ever runs, so no run
can reach the `is_relevant = false` state whose emptiness the claim
describes. -/
theorem C1_unary_run_crashes_before_gate :
    process_query (standard_pipeline (samplePipelineOracles okQueryOracle))
      "divorce grounds under Hindu law" "en" none (some "traffic") =
      Except.error (PyErr.attributeError "is_relevant") := rfl

/-! ## Claim C9 -/

/-- C9 (code evaluated at the failing input): a streaming run emits
`start` and the first `agent_status(processing)` and then the generator
raises `AttributeError` (orchestrator.py line 159); no `response` and no
`complete` event is ever emitted, violating the claimed grammar. -/
theorem C9_stream_crashes_without_response_or_complete :
    process_query_streaming (standard_pipeline (samplePipelineOracles okQueryOracle))
      "What is punishment for murder?" "en" (some "s1") (some "criminal") =
      ([StreamEvent.start (some "s1") "What is punishment for murder?",
        StreamEvent.agent_status AgentType.query AgentStatus.processing],
       some (PyErr.attributeError "is_relevant")) ∧
    ((process_query_streaming (standard_pipeline (samplePipelineOracles okQueryOracle))
      "What is punishment for murder?" "en" (some "s1") (some "criminal")).1.countP
        (fun ev => isResponseEvent ev) = 0) ∧
    ((process_query_streaming (standard_pipeline (samplePipelineOracles okQueryOracle))
      "What is punishment for murder?" "en" (some "s1") (some "criminal")).1.countP
        (fun ev => isCompleteEvent ev) = 0) := by
  refine ⟨rfl, rfl, rfl⟩

/-! ## Claim C3 -/

/-- C3 counterexample: a Hindi query whose internal processing raises
(the Ollama initialization at query_agent.py lines 62-63).  The stage
does return a context with an appended error record, but the context's
`detected_language` is `"hi"` (set by script detection before the
raise), not English; no `"criminal"` domain and no `{IPC, BNS}` acts are
assigned.  The source `process` contains no `try`/`except` and no such
defaults. -/
theorem C3_counterexample_no_fallback_defaults :
    (query_execute failQueryOracle
        (AgentContext.init "धारा 302 क्या है" "en" none (some "criminal"))).detected_language
      = some "hi" ∧
    (query_execute failQueryOracle
        (AgentContext.init "धारा 302 क्या है" "en" none (some "criminal"))).detected_language
      ≠ some "en" ∧
    (query_execute failQueryOracle
        (AgentContext.init "धारा 302 क्या है" "en" none (some "criminal"))).detected_domain
      = none ∧
    (query_execute failQueryOracle
        (AgentContext.init "धारा 302 क्या है" "en" none (some "criminal"))).applicable_acts
      = [] ∧
    (query_execute failQueryOracle
        (AgentContext.init "धारा 302 क्या है" "en" none (some "criminal"))).errors
      = [{ agent := "Query Understanding", error := "Ollama service unavailable" }] := by
  refine ⟨rfl, by decide, rfl, rfl, rfl⟩

/-- C3 amended: the QueryAnalyzer never fails the request.  When its
internal processing raises, `BaseAgent.execute` catches the exception,
appends exactly one error record, and returns the context as mutated so
far: the detected language (and extracted section entities) from the
steps before the raise are kept, and no English / "criminal" /
`{IPC, BNS}` defaults are applied — domain, acts, retrieval lists and
the `is_relevant` attribute are exactly as they were. -/
theorem C3_amended_exception_keeps_context (o : QueryOracle) (ctx : AgentContext)
    (e : PyErr) (h : o.ollama_init = Except.error e) :
    (query_execute o ctx).errors =
      ctx.errors ++ [{ agent := "Query Understanding", error := pyErrMsg e }] ∧
    (query_execute o ctx).detected_language = some (detect_language ctx.query) ∧
    (query_execute o ctx).detected_domain = ctx.detected_domain ∧
    (query_execute o ctx).applicable_acts = ctx.applicable_acts ∧
    (query_execute o ctx).statutes = ctx.statutes ∧
    (query_execute o ctx).case_laws = ctx.case_laws ∧
    (query_execute o ctx).citations = ctx.citations ∧
    (query_execute o ctx).ipc_bns_mappings = ctx.ipc_bns_mappings ∧
    (query_execute o ctx).is_relevant = ctx.is_relevant := by
  simp only [query_execute, base_execute, query_process, h,
    AgentContext.add_agent_step, AgentContext.add_error]
  refine ⟨?_, ?_, ?_, ?_, ?_, ?_, ?_, ?_, ?_⟩ <;> first | rfl | trivial

/-- Witness for C3 amended at a concrete raising oracle. -/
theorem C3_amended_exception_keeps_context_witness :
    (query_execute failQueryOracle (AgentContext.init "hello law" "en" none none)).errors =
      [] ++ [{ agent := "Query Understanding", error := "Ollama service unavailable" }] ∧
    (query_execute failQueryOracle (AgentContext.init "hello law" "en" none none)).detected_language
      = some (detect_language "hello law") ∧
    (query_execute failQueryOracle (AgentContext.init "hello law" "en" none none)).detected_domain
      = none ∧
    (query_execute failQueryOracle (AgentContext.init "hello law" "en" none none)).applicable_acts
      = [] ∧
    (query_execute failQueryOracle (AgentContext.init "hello law" "en" none none)).statutes
      = [] ∧
    (query_execute failQueryOracle (AgentContext.init "hello law" "en" none none)).case_laws
      = [] ∧
    (query_execute failQueryOracle (AgentContext.init "hello law" "en" none none)).citations
      = [] ∧
    (query_execute failQueryOracle (AgentContext.init "hello law" "en" none none)).ipc_bns_mappings
      = [] ∧
    (query_execute failQueryOracle (AgentContext.init "hello law" "en" none none)).is_relevant
      = none :=
  C3_amended_exception_keeps_context failQueryOracle
    (AgentContext.init "hello law" "en" none none)
    (PyErr.exc "Ollama service unavailable") rfl

/-! ## Claim C6 -/

/-- Modelled from the spec's words (§4.1 behaviour 1), for comparison
with the source's `_detect_language`: per-script character counts over
the fixed table of NON-LATIN Unicode script ranges only (Devanagari,
Tamil, Telugu, Bengali, Gujarati, Kannada, Malayalam, Gurmukhi, Odia,
Arabic, Han, Hiragana/Katakana, Hangul, Thai, Cyrillic); if the largest
script's count exceeds 30% of the Latin letter count, that script's
primary language, else English. -/
def spec_script_table : List (String × (Char → Bool)) :=
  [ ("hi", inRange 0x900 0x97F)
  , ("ta", inRange 0xB80 0xBFF)
  , ("te", inRange 0xC00 0xC7F)
  , ("bn", inRange 0x980 0x9FF)
  , ("gu", inRange 0xA80 0xAFF)
  , ("kn", inRange 0xC80 0xCFF)
  , ("ml", inRange 0xD00 0xD7F)
  , ("pa", inRange 0xA00 0xA7F)
  , ("or", inRange 0xB00 0xB7F)
  , ("ar", inRange 0x600 0x6FF)
  , ("zh", inRange 0x4E00 0x9FFF)
  , ("ja", inRange 0x3040 0x30FF)
  , ("ko", inRange 0xAC00 0xD7AF)
  , ("th", inRange 0xE00 0xE7F)
  , ("ru", inRange 0x400 0x4FF) ]

/-- The spec's detection rule (see `spec_script_table`). -/
def spec_detect_language (text : String) : String :=
  let latin := text.data.countP (fun c => isLatinLetter c)
  let counts := spec_script_table.map (fun lp => (lp.1, text.data.countP lp.2))
  match firstMax counts with
  | none => "en"
  | some (lang, n) => if 10 * n > 3 * latin then lang else "en"

/-- C6 counterexample: `"àà"` contains no non-Latin-script character at
all (only French diacritics), so the spec's rule yields English, but the
source's pattern table also contains Latin-diacritic classes for
Spanish/French/German and returns `"fr"`. -/
theorem C6_counterexample_latin_diacritics :
    detect_language "àà" = "fr" ∧ spec_detect_language "àà" = "en" ∧
    detect_language "àà" ≠ spec_detect_language "àà" := by
  refine ⟨rfl, rfl, by decide⟩

lemma toLower_eq_self_of_ge (c : Char) (h : 91 ≤ c.toNat) : c.toLower = c := by
  unfold Char.toLower
  rw [if_neg]
  omega

lemma toUpper_eq_self_of_ge (c : Char) (h : 123 ≤ c.toNat) : c.toUpper = c := by
  unfold Char.toUpper
  rw [if_neg]
  omega

lemma inSet_eq_false_of_ne (cs : List Char) (c : Char)
    (h : ∀ d ∈ cs, d.toNat ≠ c.toNat) : inSet cs c = false := by
  simp only [inSet]
  by_contra hc
  simp only [Bool.not_eq_false, List.contains, List.elem_eq_mem, decide_eq_true_eq] at hc
  exact h c hc rfl

/-- A character class that rejects every Devanagari character
contributes a zero count on a pure-Devanagari string. -/
lemma countCI_eq_zero_on_devanagari (p : Char → Bool)
    (hp : ∀ c : Char, 0x900 ≤ c.toNat → c.toNat ≤ 0x97F → p c = false)
    (s : List Char) (hs : ∀ c ∈ s, 0x900 ≤ c.toNat ∧ c.toNat ≤ 0x97F) :
    countCI p s = 0 := by
  apply List.countP_eq_zero.mpr
  intro c hc
  obtain ⟨a, b⟩ := hs c hc
  have e1 : c.toLower = c := toLower_eq_self_of_ge c (by omega)
  have e2 : c.toUpper = c := toUpper_eq_self_of_ge c (by omega)
  simp [e1, e2, hp c a b]

/-- C6 amended, the claim's concrete consequence that survives: a
non-empty query written purely in Devanagari yields
`detected_language = "hi"`. -/
theorem C6_amended_pure_devanagari (s : String) (h1 : s.data ≠ [])
    (h2 : ∀ c ∈ s.data, 0x900 ≤ c.toNat ∧ c.toNat ≤ 0x97F) :
    detect_language s = "hi" := by
  have hpos : 0 < s.data.length := List.length_pos.mpr h1
  have hrange : ∀ (lo hi : Nat), (∀ n, 0x900 ≤ n → n ≤ 0x97F → ¬(lo ≤ n ∧ n ≤ hi)) →
      countCI (inRange lo hi) s.data = 0 := by
    intro lo hi hdisj
    refine countCI_eq_zero_on_devanagari _ (fun c a b => ?_) s.data h2
    simp only [inRange, decide_eq_false_iff_not]
    exact hdisj c.toNat a b
  have hset : ∀ (cs : List Char), (∀ d ∈ cs, d.toNat < 0x900) →
      countCI (inSet cs) s.data = 0 := by
    intro cs hcs
    refine countCI_eq_zero_on_devanagari _ (fun c a b => ?_) s.data h2
    exact inSet_eq_false_of_ne cs c (fun d hd heq => by have := hcs d hd; omega)
  have hhi : countCI (inRange 0x900 0x97F) s.data = s.data.length := by
    apply List.countP_eq_length.mpr
    intro c hc
    obtain ⟨a, b⟩ := h2 c hc
    simp [inRange, a, b]
  have zta : countCI (inRange 0xB80 0xBFF) s.data = 0 := hrange _ _ (by omega)
  have zte : countCI (inRange 0xC00 0xC7F) s.data = 0 := hrange _ _ (by omega)
  have zbn : countCI (inRange 0x980 0x9FF) s.data = 0 := hrange _ _ (by omega)
  have zgu : countCI (inRange 0xA80 0xAFF) s.data = 0 := hrange _ _ (by omega)
  have zkn : countCI (inRange 0xC80 0xCFF) s.data = 0 := hrange _ _ (by omega)
  have zml : countCI (inRange 0xD00 0xD7F) s.data = 0 := hrange _ _ (by omega)
  have zpa : countCI (inRange 0xA00 0xA7F) s.data = 0 := hrange _ _ (by omega)
  have zor : countCI (inRange 0xB00 0xB7F) s.data = 0 := hrange _ _ (by omega)
  have zar : countCI (inRange 0x600 0x6FF) s.data = 0 := hrange _ _ (by omega)
  have zzh : countCI (inRange 0x4E00 0x9FFF) s.data = 0 := hrange _ _ (by omega)
  have zja : countCI (inRange 0x3040 0x30FF) s.data = 0 := hrange _ _ (by omega)
  have zko : countCI (inRange 0xAC00 0xD7AF) s.data = 0 := hrange _ _ (by omega)
  have zth : countCI (inRange 0xE00 0xE7F) s.data = 0 := hrange _ _ (by omega)
  have zru : countCI (inRange 0x400 0x4FF) s.data = 0 := hrange _ _ (by omega)
  have zes : countCI (inSet "áéíóúñ¿¡".data) s.data = 0 := hset _ (by decide)
  have zfr : countCI (inSet "àâçéèêëïîôùûü".data) s.data = 0 := hset _ (by decide)
  have zde : countCI (inSet "äöüß".data) s.data = 0 := hset _ (by decide)
  have heng : s.data.countP (fun c => isLatinLetter c) = 0 := by
    apply List.countP_eq_zero.mpr
    intro c hc
    obtain ⟨a, b⟩ := h2 c hc
    simp only [isLatinLetter, decide_eq_true_eq]
    omega
  have hcc : char_counts s.data = [("hi", s.data.length)] := by
    simp only [char_counts, language_patterns, List.filterMap_cons, List.filterMap_nil,
      hhi, zta, zte, zbn, zgu, zkn, zml, zpa, zor, zar, zzh, zja, zko, zth, zru,
      zes, zfr, zde, gt_iff_lt, lt_self_iff_false, if_false, hpos, if_pos]
  simp only [detect_language, heng, hcc, firstMax, List.foldl]
  rw [if_pos (by omega)]

/-- Witness for C6 amended on the concrete pure-Devanagari query
`"धारा"`. -/
theorem C6_amended_pure_devanagari_witness :
    "धारा".data ≠ [] ∧ (∀ c ∈ "धारा".data, 0x900 ≤ c.toNat ∧ c.toNat ≤ 0x97F) ∧
    detect_language "धारा" = "hi" :=
  ⟨by decide, by decide, C6_amended_pure_devanagari "धारा" (by decide) (by decide)⟩

/-! ## Claim C7 -/

/-- An LLM run that answers "yes" to every prompt. -/
def llmYes : String → Except PyErr String := fun _ => Except.ok "yes"

/-- An LLM run that answers "no" to every prompt. -/
def llmNo : String → Except PyErr String := fun _ => Except.ok "no"

/-- C7 counterexample: the gate the pipeline wires up
(`LLMRouter.verify_domain_match`, reached from query_agent.py line 68)
never consults the BM25 corpus or any embedding — its decision is a
function of the LLM's generated text.  Two runs on the same
`(query, specified_domain)` whose LLM responses differ produce opposite
decisions, so the decision is not determined by
`(query, specified_domain)` with BM25 and embeddings fixed. -/
theorem C7_counterexample_gate_depends_on_llm :
    verify_domain_match llmYes "divorce grounds under hindu law" "traffic"
      = (true, "traffic") ∧
    verify_domain_match llmNo "divorce grounds under hindu law" "traffic"
      = (false, "criminal") ∧
    verify_domain_match llmYes "divorce grounds under hindu law" "traffic"
      ≠ verify_domain_match llmNo "divorce grounds under hindu law" "traffic" := by
  refine ⟨by decide, by decide, by decide⟩

/-- C7 amended: the gate decision is deterministic in
`(query, specified_domain, LLM responses)`: two runs whose LLM response
functions agree pointwise produce the same decision. -/
theorem C7_amended_deterministic_given_llm
    (f g : String → Except PyErr String) (q d : String)
    (h : ∀ p, f p = g p) :
    verify_domain_match f q d = verify_domain_match g q d := by
  have hfg : f = g := funext h
  rw [hfg]

/-- Witness for C7 amended at a concrete oracle. -/
theorem C7_amended_deterministic_given_llm_witness :
    verify_domain_match llmNo "What is theft?" "criminal" =
      verify_domain_match llmNo "What is theft?" "criminal" :=
  C7_amended_deterministic_given_llm llmNo llmNo "What is theft?" "criminal"
    (fun _ => rfl)

/-! ## Claim C2 -/

/-- A store in which every exact section lookup succeeds with a distinct
record; no vector store. -/
def c2Oracle : StatuteOracle :=
  { vector_store := false
    get_section := fun s act =>
      some { id := some (act ++ "-" ++ s), act_code := some act, section_number := some s }
    vs_search_statutes := fun _ _ _ _ => []
    vs_search_documents := fun _ _ _ => []
    db_search_statutes := fun _ _ => []
    get_ipc_bns_mapping := fun s =>
      some { ipc_section := some s, bns_section := some ("10" ++ s) } }

/-- A context after a query-analysis that found three sections with
acts `{IPC, BNS}` (e.g. the query "sections 302, 307 and 420"). -/
def c2Ctx : AgentContext :=
  { AgentContext.init "sections 302, 307 and 420" "en" none none with
    entities := [{ etype := "section", value := "302" },
                 { etype := "section", value := "307" },
                 { etype := "section", value := "420" }]
    applicable_acts := ["IPC", "BNS"] }

/-- C2 counterexample: three section entities × two applicable acts give
six exact hits, and `process` writes all six into `context.statutes` —
the list is not capped at 5. -/
theorem C2_counterexample_statutes_uncapped :
    (statute_process c2Oracle c2Ctx).1.statutes.length = 6 ∧
    ¬ ((statute_process c2Oracle c2Ctx).1.statutes.length ≤ 5) := by
  refine ⟨by decide, by decide⟩

/-- C2 amended: the statutes list the stage writes is the exact-section
hits, then the semantic/document hits deduplicated against the
exact-hit ids, or (only when those are all empty) up to 5 keyword hits;
it is bounded by `sections × acts + semantic + documents + 5`, with no
cap at 5.  `ipc_bns_mappings` holds exactly the store's formatted
mappings for the IPC-coded items among the written statutes. -/
theorem C2_amended_statutes_bound_and_mappings (o : StatuteOracle)
    (ctx : AgentContext) :
    ((statute_process o ctx).1.statutes.length ≤
      (statute_sections ctx).length * (statute_acts ctx).length +
      (statute_semantic o ctx).length + (statute_docs o ctx).length + 5) ∧
    (∀ m ∈ (statute_process o ctx).1.ipc_bns_mappings,
      ∃ s ∈ (statute_process o ctx).1.statutes,
        s.act_code = some "IPC" ∧
        ∃ sn, s.section_number = some sn ∧ sn ≠ "" ∧
          ∃ raw, o.get_ipc_bns_mapping sn = some raw ∧ m = format_mapping raw) := by
  have hexact : (statute_exact o ctx).length ≤
      (statute_sections ctx).length * (statute_acts ctx).length := by
    unfold statute_exact
    rw [List.length_flatMap]
    calc ((statute_sections ctx).map
            (fun s => ((statute_acts ctx).filterMap (fun act => o.get_section s act)).length)).sum
        ≤ ((statute_sections ctx).map
            (fun _ => (statute_acts ctx).length)).sum :=
          List.sum_le_sum (fun s _ => List.length_filterMap_le _ _)
      _ = (statute_sections ctx).length * (statute_acts ctx).length := by
          rw [List.map_const']
          rw [List.sum_replicate, smul_eq_mul]
  constructor
  · have hsem := List.length_filter_le
      (fun r => ¬ ((statute_exact o ctx).map StatuteRec.id).contains r.id)
      (statute_semantic o ctx)
    have hdocs : (((statute_docs o ctx).filter
        (fun d => ¬ ((statute_exact o ctx).map StatuteRec.id).contains d.id)).map
          doc_to_statute).length ≤ (statute_docs o ctx).length := by
      rw [List.length_map]
      exact List.length_filter_le _ _
    have htake : ((o.db_search_statutes (statute_search_query ctx)
        ctx.applicable_acts).take 5).length ≤ 5 := by
      rw [List.length_take]
      omega
    by_cases hv : o.vector_store = true
    · simp only [statute_process, if_pos hv]
      split
      · omega
      · simp only [List.length_append]
        omega
    · simp only [statute_process, if_neg hv]
      split
      · omega
      · omega
  · intro m hm
    have hm2 : (statute_process o ctx).1.ipc_bns_mappings =
        get_cross_mappings o
          ((statute_process o ctx).1.statutes.filter (fun s => s.act_code = some "IPC")) := rfl
    rw [hm2] at hm
    unfold get_cross_mappings at hm
    rw [List.mem_filterMap] at hm
    obtain ⟨s, hs, hfs⟩ := hm
    rw [List.mem_filter] at hs
    obtain ⟨hsmem, hsact⟩ := hs
    refine ⟨s, hsmem, by simpa using hsact, ?_⟩
    revert hfs
    match hsn : s.section_number with
    | none => intro h; cases h
    | some n =>
      intro hfs
      change (if n = "" then none
        else Option.map format_mapping (o.get_ipc_bns_mapping n)) = some m at hfs
      by_cases hne : n = ""
      · rw [if_pos hne] at hfs; cases hfs
      · rw [if_neg hne] at hfs
        rw [Option.map_eq_some'] at hfs
        obtain ⟨raw, hraw, hmr⟩ := hfs
        exact ⟨n, rfl, hne, raw, hraw, hmr.symm⟩

/-- Witness for C2 amended at the six-hit store. -/
theorem C2_amended_statutes_bound_and_mappings_witness :
    ((statute_process c2Oracle c2Ctx).1.statutes.length ≤
      (statute_sections c2Ctx).length * (statute_acts c2Ctx).length +
      (statute_semantic c2Oracle c2Ctx).length + (statute_docs c2Oracle c2Ctx).length + 5) ∧
    (∀ m ∈ (statute_process c2Oracle c2Ctx).1.ipc_bns_mappings,
      ∃ s ∈ (statute_process c2Oracle c2Ctx).1.statutes,
        s.act_code = some "IPC" ∧
        ∃ sn, s.section_number = some sn ∧ sn ≠ "" ∧
          ∃ raw, c2Oracle.get_ipc_bns_mapping sn = some raw ∧ m = format_mapping raw) :=
  C2_amended_statutes_bound_and_mappings c2Oracle c2Ctx

/-! ## Claim C4 -/

lemma ne_empty_of_length_pos (s : String) (h : 0 < s.length) : s ≠ "" := by
  intro he
  rw [he] at h
  exact absurd h (by decide)

lemma statute_citation_url_ne_empty (s : StatuteRec) (i : Nat) :
    (create_statute_citation s i).url ≠ "" := by
  simp only [create_statute_citation]
  split
  · split
    · apply ne_empty_of_length_pos
      simp only [String.length_append]
      have h1 : 0 < ("https://indiankanoon.org/doc/" : String).length := by decide
      omega
    · apply ne_empty_of_length_pos
      simp only [String.length_append]
      have h1 : 0 < ("https://indiankanoon.org/search/?formInput=section%20" : String).length := by
        decide
      omega
  · split
    · apply ne_empty_of_length_pos
      simp only [String.length_append]
      have h1 : 0 < ("https://indiankanoon.org/search/?formInput=section%20" : String).length := by
        decide
      omega
    · apply ne_empty_of_length_pos
      simp only [String.length_append]
      have h1 : 0 < ("https://indiankanoon.org/search/?formInput=" : String).length := by
        decide
      omega

lemma statute_citation_source_name_ne_empty (s : StatuteRec) (i : Nat) :
    (create_statute_citation s i).source_name ≠ "" := by
  simp only [create_statute_citation]
  decide

lemma case_citation_url_ne_empty (c : CaseRec) (i : Nat) :
    (create_case_citation c i).url ≠ "" := by
  simp only [create_case_citation]
  by_cases h0 : c.source_url.getD "" = ""
  · rw [if_pos h0]
    split
    · apply ne_empty_of_length_pos
      simp only [String.length_append]
      have h1 : 0 < ("https://indiankanoon.org/search/?formInput=" : String).length := by decide
      omega
    · split
      · apply ne_empty_of_length_pos
        simp only [String.length_append]
        have h1 : 0 < ("https://indiankanoon.org/search/?formInput=" : String).length := by decide
        omega
      · apply ne_empty_of_length_pos
        simp only [String.length_append]
        have h1 : 0 < ("https://indiankanoon.org/search/?formInput=" : String).length := by decide
        omega
  · rw [if_neg h0]
    exact h0

lemma case_citation_source_name_ne_empty (c : CaseRec) (i : Nat) :
    (create_case_citation c i).source_name ≠ "" := by
  simp only [create_case_citation]
  by_cases h0 : c.source_url.getD "" = ""
  · rw [if_pos h0]
    split
    · show official_source_name "indiankanoon" ≠ ""
      decide
    · split
      · show official_source_name "indiankanoon" ≠ ""
        decide
      · show official_source_name "indiankanoon" ≠ ""
        decide
  · rw [if_neg h0]
    by_cases h1 : strContains (c.source_url.getD "") "indiankanoon" = true
    · rw [if_pos h1]
      show official_source_name "indiankanoon" ≠ ""
      decide
    · rw [if_neg h1]
      show official_source_name "sci" ≠ ""
      decide

lemma mapping_citation_fields_ne_empty (m : MappingRec) (i : Nat) :
    (create_mapping_citation m i).url ≠ "" ∧
    (create_mapping_citation m i).source_name ≠ "" := by
  simp only [create_mapping_citation]
  exact ⟨by decide, by decide⟩

/-- Every generated citation has a non-empty `url` and `source_name`. -/
lemma generated_citations_fields_ne_empty (sts : List StatuteRec)
    (cls : List CaseRec) (mps : List MappingRec) :
    ∀ c ∈ generated_citations sts cls mps, c.url ≠ "" ∧ c.source_name ≠ "" := by
  intro c hc
  simp only [generated_citations, List.mem_append, List.mem_map] at hc
  rcases hc with (⟨p, _, rfl⟩ | ⟨p, _, rfl⟩) | ⟨p, _, rfl⟩
  · exact ⟨statute_citation_url_ne_empty _ _, statute_citation_source_name_ne_empty _ _⟩
  · exact ⟨case_citation_url_ne_empty _ _, case_citation_source_name_ne_empty _ _⟩
  · exact mapping_citation_fields_ne_empty _ _

/-- The specification of `_deduplicate_citations`, proved for the
auxiliary with an arbitrary `seen` set:
every output element is an input element whose url is unseen and which
is the first input element with its url; output urls are distinct; and
every unseen input url is represented in the output. -/
lemma deduplicate_citations_aux_spec (cs : List Citation) :
    ∀ seen : List String,
    (∀ c ∈ deduplicate_citations_aux seen cs,
      c ∈ cs ∧ c.url ∉ seen ∧ (cs.filter (fun x => x.url = c.url)).head? = some c) ∧
    ((deduplicate_citations_aux seen cs).map Citation.url).Nodup ∧
    (∀ g ∈ cs, g.url ∉ seen →
      ∃ c ∈ deduplicate_citations_aux seen cs, c.url = g.url) := by
  induction cs with
  | nil =>
    intro seen
    refine ⟨?_, ?_, ?_⟩ <;> simp [deduplicate_citations_aux]
  | cons a rest ih =>
    intro seen
    have hred0 : deduplicate_citations_aux seen (a :: rest) =
        (if seen.contains a.url = true then deduplicate_citations_aux seen rest
         else a :: deduplicate_citations_aux (a.url :: seen) rest) := rfl
    by_cases hseen : a.url ∈ seen
    · have hcond : seen.contains a.url = true := by
        simp only [List.contains, List.elem_eq_mem, decide_eq_true_eq]
        exact hseen
      rw [hred0, if_pos hcond]
      obtain ⟨ih1, ih2, ih3⟩ := ih seen
      refine ⟨?_, ih2, ?_⟩
      · intro c hc
        obtain ⟨hmem, hns, hfirst⟩ := ih1 c hc
        have hne : ¬ (a.url = c.url) := by
          intro he
          exact hns (he ▸ hseen)
        refine ⟨List.mem_cons_of_mem _ hmem, hns, ?_⟩
        rw [List.filter_cons, if_neg (by simpa using hne)]
        exact hfirst
      · intro g hg hgu
        rcases List.mem_cons.mp hg with rfl | hg2
        · exact absurd hseen hgu
        · exact ih3 g hg2 hgu
    · have hcond : ¬ (seen.contains a.url = true) := by
        simp only [List.contains, List.elem_eq_mem, decide_eq_true_eq]
        exact hseen
      rw [hred0, if_neg hcond]
      obtain ⟨ih1, ih2, ih3⟩ := ih (a.url :: seen)
      refine ⟨?_, ?_, ?_⟩
      · intro c hc
        rcases List.mem_cons.mp hc with rfl | hc2
        · refine ⟨List.mem_cons_self _ _, hseen, ?_⟩
          rw [List.filter_cons, if_pos (by simp)]
          rfl
        · obtain ⟨hmem, hns, hfirst⟩ := ih1 c hc2
          have hne : ¬ (a.url = c.url) := by
            intro he
            exact hns (by simp [he])
          have hns2 : c.url ∉ seen := fun hx => hns (List.mem_cons_of_mem _ hx)
          refine ⟨List.mem_cons_of_mem _ hmem, hns2, ?_⟩
          rw [List.filter_cons, if_neg (by simpa using hne)]
          exact hfirst
      · rw [List.map_cons]
        refine List.nodup_cons.mpr ⟨?_, ih2⟩
        intro hmem
        rcases List.mem_map.mp hmem with ⟨c, hc, hcu⟩
        obtain ⟨_, hns, _⟩ := ih1 c hc
        exact hns (by simp [hcu])
      · intro g hg hgu
        rcases List.mem_cons.mp hg with rfl | hg2
        · exact ⟨_, List.mem_cons_self _ _, rfl⟩
        · by_cases hgeq : g.url = a.url
          · exact ⟨_, List.mem_cons_self _ _, hgeq.symm⟩
          · have hgs : g.url ∉ a.url :: seen := by
              intro hx
              rcases List.mem_cons.mp hx with h | h
              · exact hgeq h
              · exact hgu h
            obtain ⟨c, hc, hcu⟩ := ih3 g hg2 hgs
            exact ⟨c, List.mem_cons_of_mem _ hc, hcu⟩

/-- C4: every citation written by the CitationBuilder has a non-empty
`url` and `source_name`; the final citation urls are pairwise distinct;
every kept citation is the FIRST generated citation (statutes before
cases before mappings, each in input order) with its url; and every
generated url is represented. -/
theorem C4_citation_url_invariants (ctx : AgentContext) :
    (∀ c ∈ (citation_process ctx).1.citations, c.url ≠ "" ∧ c.source_name ≠ "") ∧
    (((citation_process ctx).1.citations.map Citation.url).Nodup) ∧
    (∀ c ∈ (citation_process ctx).1.citations,
      ((generated_citations ctx.statutes ctx.case_laws ctx.ipc_bns_mappings).filter
        (fun x => x.url = c.url)).head? = some c) ∧
    (∀ g ∈ generated_citations ctx.statutes ctx.case_laws ctx.ipc_bns_mappings,
      ∃ c ∈ (citation_process ctx).1.citations, c.url = g.url) := by
  have hcits : (citation_process ctx).1.citations =
      deduplicate_citations
        (generated_citations ctx.statutes ctx.case_laws ctx.ipc_bns_mappings) := rfl
  obtain ⟨h1, h2, h3⟩ :=
    deduplicate_citations_aux_spec
      (generated_citations ctx.statutes ctx.case_laws ctx.ipc_bns_mappings) []
  refine ⟨?_, ?_, ?_, ?_⟩
  · intro c hc
    rw [hcits] at hc
    exact generated_citations_fields_ne_empty _ _ _ c (h1 c hc).1
  · rw [hcits]
    exact h2
  · intro c hc
    rw [hcits] at hc
    exact (h1 c hc).2.2
  · intro g hg
    rw [hcits]
    exact h3 g hg (by simp)

/-- A small concrete context exercising all three citation kinds. -/
def c4Ctx : AgentContext :=
  { AgentContext.init "murder" "en" none none with
    statutes := [{ act_code := some "IPC", section_number := some "302",
                   act_name := some "Indian Penal Code",
                   title_en := some "Murder", content_en := some "Punishment for murder." }]
    case_laws := [{ case_name := some "KM Nanavati v State of Maharashtra",
                    court := some "supreme_court", is_landmark := true }]
    ipc_bns_mappings := [{ ipc_section := "302", bns_section := "103" }] }

/-- Witness for C4 at a concrete context. -/
theorem C4_citation_url_invariants_witness :
    (∀ c ∈ (citation_process c4Ctx).1.citations, c.url ≠ "" ∧ c.source_name ≠ "") ∧
    (((citation_process c4Ctx).1.citations.map Citation.url).Nodup) ∧
    (∀ c ∈ (citation_process c4Ctx).1.citations,
      ((generated_citations c4Ctx.statutes c4Ctx.case_laws c4Ctx.ipc_bns_mappings).filter
        (fun x => x.url = c.url)).head? = some c) ∧
    (∀ g ∈ generated_citations c4Ctx.statutes c4Ctx.case_laws c4Ctx.ipc_bns_mappings,
      ∃ c ∈ (citation_process c4Ctx).1.citations, c.url = g.url) :=
  C4_citation_url_invariants c4Ctx

/-! ## Claim C8 -/

set_option maxRecDepth 100000

/-- C8 counterexample: text cleaning is NOT idempotent.  On
`"a.Ab. Cd"` the step-5 fragment cut advances to `match.start() + 2`,
which lands inside the capitalized word when the period is directly
followed by it (no space), leaving a lowercase start that a second
application cuts again. -/
theorem C8_counterexample_clean_not_idempotent :
    clean_legal_text "a.Ab. Cd" = "b. Cd" ∧
    clean_legal_text (clean_legal_text "a.Ab. Cd") = "Cd" ∧
    clean_legal_text (clean_legal_text "a.Ab. Cd") ≠ clean_legal_text "a.Ab. Cd" := by
  refine ⟨by decide, by decide, by decide⟩

/-- C8 amended: although cleaning is not idempotent, running the
CitationBuilder twice over the same statute, case, and mapping inputs
yields byte-identical citation records, because each run recomputes
`context.citations` from `statutes`/`case_laws`/`ipc_bns_mappings`
(which it does not modify) and overwrites the previous list.  The
cleaning function is applied exactly once per excerpt per run, so its
non-idempotence never compounds. -/
theorem C8_amended_builder_rerun_identical (ctx : AgentContext) :
    (citation_process (citation_process ctx).1).1.citations =
      (citation_process ctx).1.citations ∧
    (citation_process (citation_process ctx).1).1.statutes = ctx.statutes ∧
    (citation_process (citation_process ctx).1).1.case_laws = ctx.case_laws ∧
    (citation_process (citation_process ctx).1).1.ipc_bns_mappings = ctx.ipc_bns_mappings :=
  ⟨rfl, rfl, rfl, rfl⟩

/-! ## Claim C5 -/

lemma insertDescBy_perm (key : SDoc → ℚ) (d : SDoc) (l : List SDoc) :
    (insertDescBy key d l).Perm (d :: l) := by
  induction l with
  | nil => simp [insertDescBy]
  | cons x xs ih =>
    unfold insertDescBy
    split
    · exact List.Perm.refl _
    · exact (List.Perm.cons x ih).trans (List.Perm.swap d x xs)

lemma insertDescBy_pairwise (key : SDoc → ℚ) (d : SDoc) (l : List SDoc)
    (h : l.Pairwise (fun a b => key b ≤ key a)) :
    (insertDescBy key d l).Pairwise (fun a b => key b ≤ key a) := by
  induction l with
  | nil => simp [insertDescBy]
  | cons x xs ih =>
    rw [List.pairwise_cons] at h
    obtain ⟨hx, hxs⟩ := h
    unfold insertDescBy
    split
    · rename_i hlt
      rw [List.pairwise_cons]
      constructor
      · intro b hb
        rcases List.mem_cons.mp hb with rfl | hb2
        · exact le_of_lt hlt
        · exact le_trans (hx b hb2) (le_of_lt hlt)
      · exact List.pairwise_cons.mpr ⟨hx, hxs⟩
    · rename_i hge
      rw [List.pairwise_cons]
      constructor
      · intro b hb
        have hb2 := (insertDescBy_perm key d xs).mem_iff.mp hb
        rcases List.mem_cons.mp hb2 with rfl | hb3
        · exact le_of_not_lt hge
        · exact hx b hb3
      · exact ih hxs

lemma sortDescBy_foldl_perm (key : SDoc → ℚ) (l acc : List SDoc) :
    (l.foldl (fun acc d => insertDescBy key d acc) acc).Perm (l ++ acc) := by
  induction l generalizing acc with
  | nil => simp
  | cons x xs ih =>
    exact (ih _).trans
      ((List.Perm.append_left xs (insertDescBy_perm key x acc)).trans List.perm_middle)

lemma sortDescBy_perm (key : SDoc → ℚ) (l : List SDoc) :
    (sortDescBy key l).Perm l := by
  have h := sortDescBy_foldl_perm key l []
  simpa [sortDescBy] using h

lemma sortDescBy_foldl_pairwise (key : SDoc → ℚ) (l acc : List SDoc)
    (hacc : acc.Pairwise (fun a b => key b ≤ key a)) :
    (l.foldl (fun acc d => insertDescBy key d acc) acc).Pairwise
      (fun a b => key b ≤ key a) := by
  induction l generalizing acc with
  | nil => simpa
  | cons x xs ih => exact ih _ (insertDescBy_pairwise key x acc hacc)

lemma sortDescBy_pairwise (key : SDoc → ℚ) (l : List SDoc) :
    (sortDescBy key l).Pairwise (fun a b => key b ≤ key a) := by
  exact sortDescBy_foldl_pairwise key l [] (by simp)

/-- In a descending-sorted list, every taken element's key dominates
every untaken element's key. -/
lemma take_dominates (key : SDoc → ℚ) (l : List SDoc) (k : Nat)
    (h : l.Pairwise (fun a b => key b ≤ key a)) :
    ∀ r ∈ l.take k, ∀ d ∈ l, d ∉ l.take k → key d ≤ key r := by
  intro r hr d hd hnd
  have hsplit : l = l.take k ++ l.drop k := (List.take_append_drop k l).symm
  have hd2 : d ∈ l.take k ++ l.drop k := hsplit ▸ hd
  rcases List.mem_append.mp hd2 with hdt | hdd
  · exact absurd hdt hnd
  · rw [hsplit] at h
    rcases List.pairwise_append.mp h with ⟨_, _, hcross⟩
    exact hcross r hr d hdd

lemma rerank_length_le (scores? : Option (List ℚ)) (documents : List SDoc)
    (top_k : Nat) (th : ℚ) : (rerank scores? documents top_k th).length ≤ top_k := by
  unfold rerank
  split
  · simp
  · split
    · rw [List.length_take]
      omega
    · split
      · rw [List.length_take]
        omega
      · rw [List.length_take]
        omega

/-- The hybrid oracle of the counterexample: two dense hits and an
adversarial cross-encoder that prefers the weaker fused candidate. -/
def c5Oracle : HybridOracle :=
  { search_vector := fun _ _ _ =>
      [{ content := "A", vector_score := some 4, source := "vector" },
       { content := "B", vector_score := some 2, source := "vector" }]
    search_bm25 := fun _ _ _ => []
    reranker_available := true
    rerank_scores := fun _ _ => some [1/10, 9/10] }

/-- The two merged candidates and the reranked survivor of the
counterexample run. -/
def c5DocA : SDoc :=
  { content := "A", vector_score := some 4, vector_score_norm := some 1,
    hybrid_score := some (1/2), source := "vector" }

def c5DocB : SDoc :=
  { content := "B", vector_score := some 2, vector_score_norm := some 0,
    hybrid_score := some 0, source := "vector" }

def c5DocBr : SDoc :=
  { c5DocB with rerank_score := some (9/10) }

/-- C5 counterexample: with re-ranking enabled, the returned length is
within `k`, but the result is selected by RERANK score: the dropped
candidate `A` has fused (hybrid) score `1/2` while the returned `B` has
fused score `0`, refuting the claimed fused-score dominance. -/
theorem C5_counterexample_rerank_breaks_fused_dominance :
    (hybrid_search c5Oracle "q" 1 none (1/2) (1/2) true (3/10)).length ≤ 1 ∧
    ¬ (∀ r ∈ hybrid_search c5Oracle "q" 1 none (1/2) (1/2) true (3/10),
       ∀ d ∈ merge_results (c5Oracle.search_vector "q" 4 none)
           (c5Oracle.search_bm25 "q" 4 none) (1/2) (1/2),
         d ∉ hybrid_search c5Oracle "q" 1 none (1/2) (1/2) true (3/10) →
         d.hybrid_score.getD 0 ≤ r.hybrid_score.getD 0) := by
  have hAB : (("A" : String) = "B") = False := eq_false (by decide)
  have hBA : (("B" : String) = "A") = False := eq_false (by decide)
  have hmerged : merge_results (c5Oracle.search_vector "q" 4 none)
      (c5Oracle.search_bm25 "q" 4 none) (1/2) (1/2) = [c5DocA, c5DocB] := by
    norm_num [merge_results, normalize_scores_vector, normalize_scores_bm25,
      dictInsert, mergeBm25Step, sortDescBy, insertDescBy, listMax, listMin,
      c5Oracle, c5DocA, c5DocB, hAB, hBA]
  have hout : hybrid_search c5Oracle "q" 1 none (1/2) (1/2) true (3/10) =
      [c5DocBr] := by
    have h1 : hybrid_search c5Oracle "q" 1 none (1/2) (1/2) true (3/10) =
        rerank (some [1/10, 9/10]) [c5DocA, c5DocB] 1 (3/10) := by
      rw [hybrid_search, if_pos (by exact ⟨rfl, rfl⟩)]
      rw [show (1 : Nat) * 4 = 4 from rfl, hmerged]
      rfl
    rw [h1]
    norm_num [rerank, sortDescBy, insertDescBy, c5DocA, c5DocB, c5DocBr]
    exact List.cons_ne_nil _ _
  constructor
  · rw [hout]
    decide
  · intro h
    have hd := h c5DocBr (by rw [hout]; exact List.mem_cons_self _ _)
      c5DocA (by rw [hmerged]; exact List.mem_cons_self _ _)
      (by
        rw [hout]
        intro hmem
        rcases List.mem_cons.mp hmem with he | he
        · have : c5DocA.content = c5DocBr.content := congrArg SDoc.content he
          simp [c5DocA, c5DocBr, c5DocB] at this
        · cases he)
    have hA : c5DocA.hybrid_score.getD 0 = 1/2 := rfl
    have hB : c5DocBr.hybrid_score.getD 0 = 0 := rfl
    rw [hA, hB] at hd
    norm_num at hd

/-- C5 amended: every hybrid search returns at most `k` results, and
when re-ranking is disabled or the re-ranker is unavailable the returned
results' fused scores dominate every dropped candidate's fused score;
under re-ranking, selection is by rerank score instead. -/
theorem C5_amended_length_and_fused_dominance (o : HybridOracle) (q : String)
    (k : Nat) (df : Option String) (vw bw : ℚ) (ur : Bool) (th : ℚ) :
    (hybrid_search o q k df vw bw ur th).length ≤ k ∧
    ((ur = false ∨ o.reranker_available = false) →
      ∀ r ∈ hybrid_search o q k df vw bw ur th,
      ∀ d ∈ merge_results (o.search_vector q (k * 4) df) (o.search_bm25 q (k * 4) df) vw bw,
        d ∉ hybrid_search o q k df vw bw ur th →
        d.hybrid_score.getD 0 ≤ r.hybrid_score.getD 0) := by
  constructor
  · unfold hybrid_search
    split
    · exact rerank_length_le _ _ _ _
    · rw [List.length_take]
      omega
  · intro hoff
    have hcond : ¬ (ur = true ∧ o.reranker_available = true) := by
      rcases hoff with h | h <;> simp [h]
    intro r hr d hd hnd
    rw [hybrid_search, if_neg hcond] at hr hnd
    have hsorted : (merge_results (o.search_vector q (k * 4) df)
        (o.search_bm25 q (k * 4) df) vw bw).Pairwise
          (fun a b => b.hybrid_score.getD 0 ≤ a.hybrid_score.getD 0) := by
      unfold merge_results
      exact sortDescBy_pairwise _ _
    exact take_dominates _ _ k hsorted r hr d hd hnd

/-- Witness for C5 amended on the concrete oracle with re-ranking off. -/
theorem C5_amended_length_and_fused_dominance_witness :
    (hybrid_search c5Oracle "q" 1 none (1/2) (1/2) false (3/10)).length ≤ 1 ∧
    ((false = false ∨ c5Oracle.reranker_available = false) →
      ∀ r ∈ hybrid_search c5Oracle "q" 1 none (1/2) (1/2) false (3/10),
      ∀ d ∈ merge_results (c5Oracle.search_vector "q" (1 * 4) none)
          (c5Oracle.search_bm25 "q" (1 * 4) none) (1/2) (1/2),
        d ∉ hybrid_search c5Oracle "q" 1 none (1/2) (1/2) false (3/10) →
        d.hybrid_score.getD 0 ≤ r.hybrid_score.getD 0) :=
  C5_amended_length_and_fused_dominance c5Oracle "q" 1 none (1/2) (1/2) false (3/10)
